import Mathlib

/-!
Verification of the OpenClaw postfix-pack patcher (`scripts/patch.py`).

The patcher's text transformations are embedded shallowly over `Text := List Char`
(one element per Unicode code point, matching Python's `str`).  Python regular
expressions that the patcher uses are embedded as executable matchers specialised
to the concrete patterns appearing in the source; each matcher definition carries
a comment quoting the pattern it implements.  `re.subn(..., count=1)` and
`str.replace(..., 1)` become `subnFirst` and `replaceFirst` below.
-/

set_option maxRecDepth 4000

/-- Program text: a Python `str` as a list of characters. -/
abbrev Text := List Char

/-- Boolean prefix test, mirroring Python `str.startswith`. -/
def pfx : Text → Text → Bool
  | [], _ => true
  | _ :: _, [] => false
  | a :: xs, b :: ys => a == b && pfx xs ys

/-- Boolean substring test, mirroring Python's `needle in hay`. -/
def containsSub (needle : Text) : Text → Bool
  | [] => pfx needle []
  | c :: t => pfx needle (c :: t) || containsSub needle t

/-- Python `hay.replace(pat, repl, 1)`: replace the first occurrence of `pat`
(the whole text is returned unchanged when `pat` does not occur). -/
def replaceFirst (pat repl : Text) : Text → Text
  | [] => if pfx pat [] then repl else []
  | c :: cs =>
    if pfx pat (c :: cs) then repl ++ (c :: cs).drop pat.length
    else c :: replaceFirst pat repl cs

theorem pfx_iff (a b : Text) : pfx a b = true ↔ ∃ t, b = a ++ t := by
  induction a generalizing b with
  | nil => simp [pfx]
  | cons x xs ih =>
    cases b with
    | nil => simp [pfx]
    | cons y ys =>
      simp only [pfx, Bool.and_eq_true, beq_iff_eq, ih]
      constructor
      · rintro ⟨rfl, t, rfl⟩; exact ⟨t, rfl⟩
      · rintro ⟨t, h⟩
        cases h
        exact ⟨rfl, t, rfl⟩

theorem containsSub_iff (n h : Text) :
    containsSub n h = true ↔ ∃ u v, h = u ++ n ++ v := by
  induction h with
  | nil =>
    simp only [containsSub, pfx_iff]
    constructor
    · rintro ⟨t, ht⟩
      exact ⟨[], t, by simpa using ht⟩
    · rintro ⟨u, v, huv⟩
      have hu : u = [] := by
        cases u with
        | nil => rfl
        | cons a b => simp at huv
      subst hu
      exact ⟨v, by simpa using huv⟩
  | cons c t ih =>
    simp only [containsSub, Bool.or_eq_true, pfx_iff, ih]
    constructor
    · rintro (⟨w, hw⟩ | ⟨u, v, huv⟩)
      · exact ⟨[], w, by simpa using hw⟩
      · exact ⟨c :: u, v, by simp [huv]⟩
    · rintro ⟨u, v, huv⟩
      cases u with
      | nil => exact Or.inl ⟨v, by simpa using huv⟩
      | cons a b =>
        simp only [List.cons_append, List.cons.injEq] at huv
        exact Or.inr ⟨b, v, huv.2⟩

/-- A substring of an inserted block is a substring of the whole. -/
theorem containsSub_of_mid (n mid u v : Text) (h : containsSub n mid = true) :
    containsSub n (u ++ mid ++ v) = true := by
  rcases (containsSub_iff n mid).mp h with ⟨a, b, hab⟩
  refine (containsSub_iff n _).mpr ⟨u ++ a, b ++ v, ?_⟩
  subst hab; simp

/-- When `pat` occurs in `s`, `replaceFirst` splices `repl` in for an occurrence
of `pat`. -/
theorem replaceFirst_spec (pat repl s : Text) (h : containsSub pat s = true) :
    ∃ u v, s = u ++ pat ++ v ∧ replaceFirst pat repl s = u ++ repl ++ v := by
  induction s with
  | nil =>
    rcases (containsSub_iff pat []).mp h with ⟨u, v, huv⟩
    have hu : u = [] := by
      cases u with
      | nil => rfl
      | cons a b => exact absurd huv.symm (by simp)
    subst hu
    have hp : pat = [] := by
      cases pat with
      | nil => rfl
      | cons a b => exact absurd huv.symm (by simp)
    subst hp
    exact ⟨[], [], by simp, by simp [replaceFirst, pfx]⟩
  | cons c cs ih =>
    by_cases hp : pfx pat (c :: cs) = true
    · rcases (pfx_iff _ _).mp hp with ⟨t, ht⟩
      refine ⟨[], t, by simpa using ht, ?_⟩
      have hdrop : (c :: cs).drop pat.length = t := by
        rw [ht]; simp
      simp [replaceFirst, hp, hdrop]
    · have hcs : containsSub pat cs = true := by
        have := (containsSub_iff pat (c :: cs)).mp h
        rcases this with ⟨u, v, huv⟩
        cases u with
        | nil =>
          exfalso; apply hp
          exact (pfx_iff _ _).mpr ⟨v, by simpa using huv⟩
        | cons a b =>
          simp only [List.cons_append, List.cons.injEq] at huv
          exact (containsSub_iff pat cs).mpr ⟨b, v, huv.2⟩
      rcases ih hcs with ⟨u, v, huv, hrep⟩
      refine ⟨c :: u, v, by simp [huv], ?_⟩
      simp only [replaceFirst, hp]
      simp [hrep]

/-! ### Regex matchers

A `Matcher` tries to match a regular expression at the start of a text and
returns the number of characters consumed.  The combinators below reproduce
Python `re` semantics for the concrete patterns used by `patch.py`: literal
runs, greedy character-class `*`/`+` (always followed in those patterns by a
character outside the class, so committing to the maximal run is exact),
greedy single-character `?` (with backtracking), and lazy `.*?` under
`re.DOTALL` (shortest extension such that the continuation matches). -/

/-- Result of matching at one position: characters consumed, or `none`. -/
abbrev Matcher := Text → Option Nat

/-- Matcher for the end of a pattern. -/
def mEnd : Matcher := fun _ => some 0

/-- Matcher for a literal run followed by continuation `k`. -/
def mLit (lit : Text) (k : Matcher) : Matcher := fun s =>
  if pfx lit s then (k (s.drop lit.length)).map (· + lit.length) else none

/-- Greedy character-class `*` (committing to the maximal run). -/
def mStarClass (p : Char → Bool) (k : Matcher) : Matcher := fun s =>
  let n := (s.takeWhile p).length
  (k (s.drop n)).map (· + n)

/-- Greedy character-class `+` (committing to the maximal run). -/
def mPlusClass (p : Char → Bool) (k : Matcher) : Matcher := fun s =>
  let n := (s.takeWhile p).length
  if n = 0 then none else (k (s.drop n)).map (· + n)

/-- Greedy single-character `?` with backtracking. -/
def mOptChar (c : Char) (k : Matcher) : Matcher := fun s =>
  match s with
  | [] => k []
  | x :: xs =>
    if x = c then
      match k xs with
      | some n => some (n + 1)
      | none => k (x :: xs)
    else k (x :: xs)

/-- Lazy `.*?` under `re.DOTALL`: skip the fewest characters such that the
continuation `k` matches. -/
def mDotStarLazy (k : Matcher) : Text → Option Nat
  | [] => k []
  | c :: xs =>
    match k (c :: xs) with
    | some n => some n
    | none => (mDotStarLazy k xs).map (· + 1)

/-- Python `pat.subn(repl, s, count=1)` for a pattern embedded as matcher `m`:
scan positions left to right, splice `repl` in for the first match.  `none`
models a subn count of `0` (no match anywhere). -/
def subnFirst (m : Matcher) (repl : Text) : Text → Option Text
  | [] =>
    match m [] with
    | some n => some (repl ++ List.drop n [])
    | none => none
  | c :: cs =>
    match m (c :: cs) with
    | some n => some (repl ++ (c :: cs).drop n)
    | none => (subnFirst m repl cs).map (c :: ·)

/-- A successful `subnFirst` splices `repl` in between a preserved head and the
tail after the matched span. -/
theorem subnFirst_spec (m : Matcher) (repl s t : Text)
    (h : subnFirst m repl s = some t) :
    ∃ u b n, s = u ++ b ∧ m b = some n ∧ t = u ++ repl ++ b.drop n := by
  induction s generalizing t with
  | nil =>
    simp only [subnFirst] at h
    cases hm : m [] with
    | none => rw [hm] at h; exact absurd h (by simp)
    | some n =>
      rw [hm] at h
      refine ⟨[], [], n, by simp, hm, ?_⟩
      simp only [Option.some.injEq] at h
      simp [← h]
  | cons c cs ih =>
    simp only [subnFirst] at h
    cases hm : m (c :: cs) with
    | some n =>
      rw [hm] at h
      refine ⟨[], c :: cs, n, by simp, hm, ?_⟩
      simp only [Option.some.injEq] at h
      simp [← h]
    | none =>
      rw [hm] at h
      cases hrec : subnFirst m repl cs with
      | none => rw [hrec] at h; exact absurd h (by simp)
      | some t' =>
        rw [hrec] at h
        simp only [Option.map_some', Option.some.injEq] at h
        rcases ih t' hrec with ⟨u, b, n, hs, hb, ht⟩
        exact ⟨c :: u, b, n, by simp [hs], hb, by simp [← h, ht]⟩

/-- The replacement text occurs in the result of a successful `subnFirst`. -/
theorem containsSub_subnFirst (m : Matcher) (repl s t sub : Text)
    (h : subnFirst m repl s = some t) (hsub : containsSub sub repl = true) :
    containsSub sub t = true := by
  rcases subnFirst_spec m repl s t h with ⟨u, b, n, _, _, ht⟩
  subst ht
  exact containsSub_of_mid sub repl u (b.drop n) hsub

/-! ### String constants of `patch.py` -/

/-- patch.py line 23: marker token of the stamp-placement patch. -/
def POSTFIX_MARKER_S : String := "__POSTFIX_PATCHED__"

/-- Character-list form of `POSTFIX_MARKER_S`. -/
def POSTFIX_MARKER : Text := POSTFIX_MARKER_S.toList

/-- patch.py line 24: marker token of the identity-shortening patch. -/
def IDSHORT_MARKER_S : String := "__MODELSTAMP_IDSHORT__"

/-- Character-list form of `IDSHORT_MARKER_S`. -/
def IDSHORT_MARKER : Text := IDSHORT_MARKER_S.toList

/-- patch.py line 25: marker token of the model/provider stamp patch. -/
def MODELSTAMP_V3_MARKER_S : String := "__MODELSTAMP_V3__"

/-- Character-list form of `MODELSTAMP_V3_MARKER_S`. -/
def MODELSTAMP_V3_MARKER : Text := MODELSTAMP_V3_MARKER_S.toList

/-- patch.py line 710: the exact prepend-logic statement that `patch_postfix_support` looks for literally. -/
def literal_line_S : String := "if (effectivePrefix && text && text.trim() !== HEARTBEAT_TOKEN && !text.startsWith(effectivePrefix)) text = `$\x7beffectivePrefix\x7d $\x7btext\x7d`;"

/-- Character-list form of `literal_line_S`. -/
def literal_line : Text := literal_line_S.toList

/-- patch.py lines 698-708: replacement block of `patch_postfix_support` (as the Python string `postfix_block`; the two-character sequence backslash-n is a JavaScript escape inside a template literal). -/
def postfix_block_S : String := "/* __POSTFIX_PATCHED__ */ if (effectivePrefix && text && text.trim() !== HEARTBEAT_TOKEN) \x7b if (effectivePrefix.startsWith(\"postfix:\")) \x7b const suffix = effectivePrefix.slice(8); if (!text.endsWith(suffix)) text = `$\x7btext\x7d\\n$\x7bsuffix\x7d`; \x7d else if (!text.startsWith(effectivePrefix)) \x7b text = `$\x7beffectivePrefix\x7d $\x7btext\x7d`; \x7d \x7d"

/-- Character-list form of `postfix_block_S`. -/
def postfix_block : Text := postfix_block_S.toList

/-- patch.py lines 730-732: replacement text of `patch_identity_short` (no backslashes, so `re.subn` splices it verbatim). -/
def idshort_repl_S : String := "/* __MODELSTAMP_IDSHORT__ */ const __id0 = resolveIdentityName(cfg, agentId);const prefixContext = \x7b identityName: __id0 ? __id0.trim().slice(0, 1).toUpperCase() : void 0 \x7d;"

/-- Character-list form of `idshort_repl_S`. -/
def idshort_repl : Text := idshort_repl_S.toList

/-- patch.py line 845: the exact no-argument provider-context accessor that `patch_modelstamp_v3` looks for literally. -/
def rpp_literal_S : String := "responsePrefixContextProvider: () => prefixContext,"

/-- Character-list form of `rpp_literal_S`. -/
def rpp_literal : Text := rpp_literal_S.toList

/-- patch.py lines 773-786: piece 0 of the `on_model_new` replacement template (the holes hold the serialised model-alias map and the model fallback length). -/
def onModelPart0_S : String := "\tlet __rawProvider, __rawModel;\n\tconst __MODEL_ALIAS_MAP = "

/-- Character-list form of `onModelPart0_S`. -/
def onModelPart0 : Text := onModelPart0_S.toList

/-- patch.py lines 773-786: piece 1 of the `on_model_new` replacement template (the holes hold the serialised model-alias map and the model fallback length). -/
def onModelPart1_S : String := ";\n\tconst __MODEL_FALLBACK_LEN = "

/-- Character-list form of `onModelPart1_S`. -/
def onModelPart1 : Text := onModelPart1_S.toList

/-- patch.py lines 773-786: piece 2 of the `on_model_new` replacement template (the holes hold the serialised model-alias map and the model fallback length). -/
def onModelPart2_S : String := ";\n\tconst onModelSelected = (ctx) => \x7b\n\t/* __MODELSTAMP_V3__ */ __rawProvider = ctx.provider; __rawModel = ctx.model;\n\tconst __m0 = extractShortModelName(ctx.model);\n\tlet __ms = __MODEL_ALIAS_MAP[__m0];\n\tif (!__ms) __ms = __m0.toLowerCase().replace(/[^a-z0-9]+/g, \"\").slice(0, __MODEL_FALLBACK_LEN);\n\tprefixContext.model = __ms;\n\tprefixContext.modelFull = `$\x7bctx.provider\x7d/$\x7bctx.model\x7d`;\n\tprefixContext.thinkingLevel = ctx.thinkLevel ?? \"off\";\n\t\x7d;"

/-- Character-list form of `onModelPart2_S`. -/
def onModelPart2 : Text := onModelPart2_S.toList

/-- patch.py lines 795-843: piece 0 of the `rpp_repl` replacement template (the holes hold the serialised provider/source/auth maps and the two fallback lengths). -/
def rppPart0_S : String := "const __PROVIDER_ALIAS_MAP = "

/-- Character-list form of `rppPart0_S`. -/
def rppPart0 : Text := rppPart0_S.toList

/-- patch.py lines 795-843: piece 1 of the `rpp_repl` replacement template (the holes hold the serialised provider/source/auth maps and the two fallback lengths). -/
def rppPart1_S : String := ";\nconst __SOURCE_ALIAS_MAP = "

/-- Character-list form of `rppPart1_S`. -/
def rppPart1 : Text := rppPart1_S.toList

/-- patch.py lines 795-843: piece 2 of the `rpp_repl` replacement template (the holes hold the serialised provider/source/auth maps and the two fallback lengths). -/
def rppPart2_S : String := ";\nconst __AUTH_OVERRIDES = "

/-- Character-list form of `rppPart2_S`. -/
def rppPart2 : Text := rppPart2_S.toList

/-- patch.py lines 795-843: piece 3 of the `rpp_repl` replacement template (the holes hold the serialised provider/source/auth maps and the two fallback lengths). -/
def rppPart3_S : String := ";\nconst __PROVIDER_FALLBACK_LEN = "

/-- Character-list form of `rppPart3_S`. -/
def rppPart3 : Text := rppPart3_S.toList

/-- patch.py lines 795-843: piece 4 of the `rpp_repl` replacement template (the holes hold the serialised provider/source/auth maps and the two fallback lengths). -/
def rppPart4_S : String := ";\nconst __SOURCE_FALLBACK_LEN = "

/-- Character-list form of `rppPart4_S`. -/
def rppPart4 : Text := rppPart4_S.toList

/-- patch.py lines 795-843: piece 5 of the `rpp_repl` replacement template (the holes hold the serialised provider/source/auth maps and the two fallback lengths). -/
def rppPart5_S : String := ";\nresponsePrefixContextProvider: () => \x7b\n\tif (__rawProvider) \x7b\n\t\tconst __base = (__PROVIDER_ALIAS_MAP[__rawProvider] ?? __rawProvider.slice(0, __PROVIDER_FALLBACK_LEN));\n\t\tlet __auth = __rawProvider === \"lmstudio\" ? \"L\" : \"?\";\n\t\ttry \x7b\n\t\t\tif (typeof resolveAgentDir === \"function\" && typeof ensureAuthProfileStore === \"function\") \x7b\n\t\t\t\tconst __adir = resolveAgentDir(cfg, agentId);\n\t\t\t\tif (__adir) \x7b\n\t\t\t\t\tconst __store = ensureAuthProfileStore(__adir, \x7b allowKeychainPrompt: false \x7d);\n\t\t\t\t\tconst __pid = __store.lastGood?.[__rawProvider];\n\t\t\t\t\tconst __ptype = __pid ? __store.profiles?.[__pid]?.type : void 0;\n\t\t\t\t\tconst __override = __AUTH_OVERRIDES?.[__rawProvider]?.[__ptype];\n\t\t\t\t\tif (__override) __auth = __override;\n\t\t\t\t\telse if (__ptype === \"oauth\") __auth = \"O\";\n\t\t\t\t\telse if (__ptype === \"api_key\") __auth = (__rawProvider === \"vercel-ai-gateway\" ? \"T\" : \"K\");\n\t\t\t\t\telse if (__ptype === \"token\") __auth = (__rawProvider === \"anthropic\" ? \"O\" : \"T\");\n\t\t\t\t\x7d\n\t\t\t\x7d\n\t\t\tif (__auth === \"?\") \x7b\n\t\t\t\tconst __profiles = cfg?.auth?.profiles;\n\t\t\t\tconst __authOrder = cfg?.auth?.order?.[__rawProvider];\n\t\t\t\tconst __orderedId = Array.isArray(__authOrder) && __authOrder.length > 0 ? __authOrder[0] : null;\n\t\t\t\tconst __defaultId = `$\x7b__rawProvider\x7d:default`;\n\t\t\t\tconst __entry = (__orderedId ? __profiles?.[__orderedId] : null) ?? __profiles?.[__defaultId] ?? Object.values(__profiles ?? \x7b\x7d).find((p) => p?.provider === __rawProvider);\n\t\t\t\tconst __mode = __entry?.mode;\n\t\t\t\tconst __override = __AUTH_OVERRIDES?.[__rawProvider]?.[__mode];\n\t\t\t\tif (__override) __auth = __override;\n\t\t\t\telse if (__mode === \"oauth\") __auth = \"O\";\n\t\t\t\telse if (__mode === \"api_key\") __auth = (__rawProvider === \"vercel-ai-gateway\" ? \"T\" : \"K\");\n\t\t\t\telse if (__mode === \"token\") __auth = (__rawProvider === \"anthropic\" ? \"O\" : \"T\");\n\t\t\t\x7d\n\t\t\x7d catch \x7b\x7d\n\t\tlet __src = null;\n\t\tif (__rawProvider === \"openrouter\" || __rawProvider === \"vercel-ai-gateway\") \x7b\n\t\t\tconst __seg = String(__rawModel ?? \"\").split(\"/\")[0].toLowerCase();\n\t\t\tconst __src0 = (__SOURCE_ALIAS_MAP[__seg] ?? __seg.slice(0, __SOURCE_FALLBACK_LEN));\n\t\t\t__src = __src0 || \"??\";\n\t\t\x7d\n\t\tprefixContext.provider = __src ? `$\x7b__base\x7d$\x7b__auth\x7d.$\x7b__src\x7d` : `$\x7b__base\x7d$\x7b__auth\x7d`;\n\t\x7d\n\treturn prefixContext;\n\x7d,"

/-- Character-list form of `rppPart5_S`. -/
def rppPart5 : Text := rppPart5_S.toList

/-- patch.py line 747: first sub-expression of the safe provider-auth signature. -/
def safeA_S : String := "typeof resolveAgentDir === \"function\" && typeof ensureAuthProfileStore === \"function\""

/-- Character-list form of `safeA_S`. -/
def safeA : Text := safeA_S.toList

/-- patch.py line 748: second sub-expression of the safe provider-auth signature. -/
def safeB_S : String := "const __profiles = cfg?.auth?.profiles;"

/-- Character-list form of `safeB_S`. -/
def safeB : Text := safeB_S.toList

/-- patch.py line 749: third sub-expression of the safe provider-auth signature. -/
def safeC_S : String := "const __authOrder = cfg?.auth?.order?.[__rawProvider];"

/-- Character-list form of `safeC_S`. -/
def safeC : Text := safeC_S.toList

/-- patch.py line 740: the declaration whose adjacent duplicates `normalize_raw_provider_declaration` collapses. -/
def declStr_S : String := "let __rawProvider, __rawModel;"

/-- Character-list form of `declStr_S`. -/
def declStr : Text := declStr_S.toList

/-! ### Literal fragments of the three anchor regexes -/

/-- Literal regex fragment `if`. -/
def tokIf_S : String := "if"

/-- Character-list form of `tokIf_S`. -/
def tokIf : Text := tokIf_S.toList

/-- Literal regex fragment `(`. -/
def tokLParen_S : String := "("

/-- Character-list form of `tokLParen_S`. -/
def tokLParen : Text := tokLParen_S.toList

/-- Literal regex fragment `effectivePrefix`. -/
def tokEffPre_S : String := "effectivePrefix"

/-- Character-list form of `tokEffPre_S`. -/
def tokEffPre : Text := tokEffPre_S.toList

/-- Literal regex fragment `&&`. -/
def tokAmpAmp_S : String := "&&"

/-- Character-list form of `tokAmpAmp_S`. -/
def tokAmpAmp : Text := tokAmpAmp_S.toList

/-- Literal regex fragment `text`. -/
def tokText_S : String := "text"

/-- Character-list form of `tokText_S`. -/
def tokText : Text := tokText_S.toList

/-- Literal regex fragment `text.trim()`. -/
def tokTrim_S : String := "text.trim()"

/-- Character-list form of `tokTrim_S`. -/
def tokTrim : Text := tokTrim_S.toList

/-- Literal regex fragment `!==`. -/
def tokNeq_S : String := "!=="

/-- Character-list form of `tokNeq_S`. -/
def tokNeq : Text := tokNeq_S.toList

/-- Literal regex fragment `HEARTBEAT_TOKEN`. -/
def tokHeartbeat_S : String := "HEARTBEAT_TOKEN"

/-- Character-list form of `tokHeartbeat_S`. -/
def tokHeartbeat : Text := tokHeartbeat_S.toList

/-- Literal regex fragment `!text.startsWith(effectivePrefix)`. -/
def tokNotStarts_S : String := "!text.startsWith(effectivePrefix)"

/-- Character-list form of `tokNotStarts_S`. -/
def tokNotStarts : Text := tokNotStarts_S.toList

/-- Literal regex fragment `)`. -/
def tokRParen_S : String := ")"

/-- Character-list form of `tokRParen_S`. -/
def tokRParen : Text := tokRParen_S.toList

/-- Literal regex fragment `=`. -/
def tokEq_S : String := "="

/-- Character-list form of `tokEq_S`. -/
def tokEq : Text := tokEq_S.toList

/-- Literal regex fragment ``$\x7beffectivePrefix\x7d`. -/
def tokTplOpen_S : String := "`$\x7beffectivePrefix\x7d"

/-- Character-list form of `tokTplOpen_S`. -/
def tokTplOpen : Text := tokTplOpen_S.toList

/-- Literal regex fragment `$\x7btext\x7d`;`. -/
def tokTplClose_S : String := "$\x7btext\x7d`;"

/-- Character-list form of `tokTplClose_S`. -/
def tokTplClose : Text := tokTplClose_S.toList

/-- Literal regex fragment `const`. -/
def tokConst_S : String := "const"

/-- Character-list form of `tokConst_S`. -/
def tokConst : Text := tokConst_S.toList

/-- Literal regex fragment `prefixContext`. -/
def tokPrefCtx_S : String := "prefixContext"

/-- Character-list form of `tokPrefCtx_S`. -/
def tokPrefCtx : Text := tokPrefCtx_S.toList

/-- Literal regex fragment `\x7b`. -/
def tokLBrace_S : String := "\x7b"

/-- Character-list form of `tokLBrace_S`. -/
def tokLBrace : Text := tokLBrace_S.toList

/-- Literal regex fragment `identityName:`. -/
def tokIdentName_S : String := "identityName:"

/-- Character-list form of `tokIdentName_S`. -/
def tokIdentName : Text := tokIdentName_S.toList

/-- Literal regex fragment `resolveIdentityName(cfg,`. -/
def tokResolveId_S : String := "resolveIdentityName(cfg,"

/-- Character-list form of `tokResolveId_S`. -/
def tokResolveId : Text := tokResolveId_S.toList

/-- Literal regex fragment `agentId)`. -/
def tokAgentId_S : String := "agentId)"

/-- Character-list form of `tokAgentId_S`. -/
def tokAgentId : Text := tokAgentId_S.toList

/-- Literal regex fragment `\x7d;`. -/
def tokCloseStmt_S : String := "\x7d;"

/-- Character-list form of `tokCloseStmt_S`. -/
def tokCloseStmt : Text := tokCloseStmt_S.toList

/-- Literal regex fragment `const onModelSelected = (ctx) => \x7b`. -/
def tokOnModelHead_S : String := "const onModelSelected = (ctx) => \x7b"

/-- Character-list form of `tokOnModelHead_S`. -/
def tokOnModelHead : Text := tokOnModelHead_S.toList

/-- Literal regex fragment `(newline)`. -/
def tokNewline_S : String := "\n"

/-- Character-list form of `tokNewline_S`. -/
def tokNewline : Text := tokNewline_S.toList

/-- Literal regex fragment `responsePrefixContextProvider:`. -/
def tokRppHead_S : String := "responsePrefixContextProvider:"

/-- Character-list form of `tokRppHead_S`. -/
def tokRppHead : Text := tokRppHead_S.toList

/-- Literal regex fragment `()`. -/
def tokParens_S : String := "()"

/-- Character-list form of `tokParens_S`. -/
def tokParens : Text := tokParens_S.toList

/-- Literal regex fragment `=>`. -/
def tokArrow_S : String := "=>"

/-- Character-list form of `tokArrow_S`. -/
def tokArrow : Text := tokArrow_S.toList

/-- Literal regex fragment `return prefixContext;`. -/
def tokRetCtx_S : String := "return prefixContext;"

/-- Character-list form of `tokRetCtx_S`. -/
def tokRetCtx : Text := tokRetCtx_S.toList

/-- Literal regex fragment `\x7d,`. -/
def tokBraceComma_S : String := "\x7d,"

/-- Character-list form of `tokBraceComma_S`. -/
def tokBraceComma : Text := tokBraceComma_S.toList


/-- Python `\s` on ASCII text (the bundles patched are ASCII JavaScript). -/
def isPyWs (c : Char) : Bool :=
  c = ' ' || c = '\t' || c = '\n' || c = '\r' || c = '\x0b' || c = '\x0c'

/-- The character class `[ \t]`. -/
def isHTab (c : Char) : Bool := c = ' ' || c = '\t'

/-- Token of one of the concrete regex patterns in `patch.py`. -/
inductive RTok where
  | lit : Text → RTok
  | ws : RTok
  | wsPlus : RTok
  | hws : RTok
  | opt : Char → RTok
  | lazyDot : RTok

/-- Compile a token list to a matcher (continuation style, exact Python `re`
semantics for these patterns as explained above). -/
def matcherOf : List RTok → Matcher
  | [] => mEnd
  | RTok.lit t :: rest => mLit t (matcherOf rest)
  | RTok.ws :: rest => mStarClass isPyWs (matcherOf rest)
  | RTok.wsPlus :: rest => mPlusClass isPyWs (matcherOf rest)
  | RTok.hws :: rest => mStarClass isHTab (matcherOf rest)
  | RTok.opt c :: rest => mOptChar c (matcherOf rest)
  | RTok.lazyDot :: rest => mDotStarLazy (matcherOf rest)

/-- patch.py lines 714-717: the whitespace-tolerant anchor pattern of
`patch_postfix_support`. -/
def postfixAnchorToks : List RTok :=
  [RTok.lit tokIf, RTok.ws, RTok.lit tokLParen, RTok.ws, RTok.lit tokEffPre,
   RTok.ws, RTok.lit tokAmpAmp, RTok.ws, RTok.lit tokText, RTok.ws,
   RTok.lit tokAmpAmp, RTok.ws, RTok.lit tokTrim, RTok.ws, RTok.lit tokNeq,
   RTok.ws, RTok.lit tokHeartbeat, RTok.ws, RTok.lit tokAmpAmp, RTok.ws,
   RTok.lit tokNotStarts, RTok.ws, RTok.lit tokRParen, RTok.ws,
   RTok.opt '{', RTok.ws, RTok.lit tokText, RTok.ws, RTok.lit tokEq, RTok.ws,
   RTok.lit tokTplOpen, RTok.wsPlus, RTok.lit tokTplClose, RTok.ws,
   RTok.opt '}']

/-- Matcher of the `patch_postfix_support` anchor pattern. -/
def postfixAnchorM : Matcher := matcherOf postfixAnchorToks

/-- patch.py line 728: the anchor pattern of `patch_identity_short`. -/
def idshortToks : List RTok :=
  [RTok.lit tokConst, RTok.wsPlus, RTok.lit tokPrefCtx, RTok.ws,
   RTok.lit tokEq, RTok.ws, RTok.lit tokLBrace, RTok.ws, RTok.lit tokIdentName,
   RTok.ws, RTok.lit tokResolveId, RTok.ws, RTok.lit tokAgentId, RTok.ws,
   RTok.lit tokCloseStmt]

/-- Matcher of the `patch_identity_short` anchor pattern. -/
def idshortM : Matcher := matcherOf idshortToks

/-- patch.py line 772: the `onModelSelected` anchor pattern of
`patch_modelstamp_v3` (with `re.DOTALL`). -/
def onModelToks : List RTok :=
  [RTok.hws, RTok.lit tokOnModelHead, RTok.lazyDot, RTok.lit tokNewline,
   RTok.hws, RTok.lit tokCloseStmt]

/-- Matcher of the `onModelSelected` anchor pattern. -/
def onModelM : Matcher := matcherOf onModelToks

/-- patch.py line 849: the tolerant `responsePrefixContextProvider` block
pattern of `patch_modelstamp_v3` (with `re.DOTALL`). -/
def rppToks : List RTok :=
  [RTok.lit tokRppHead, RTok.ws, RTok.lit tokParens, RTok.ws,
   RTok.lit tokArrow, RTok.ws, RTok.lit tokLBrace, RTok.lazyDot,
   RTok.lit tokRetCtx, RTok.ws, RTok.lit tokBraceComma]

/-- Matcher of the `responsePrefixContextProvider` block pattern. -/
def rppM : Matcher := matcherOf rppToks

/-! ### Replacement-template escape processing

Python `re.subn` parses its replacement string as a template: `\\n`, `\\t`,
`\\r`, `\\a`, `\\b`, `\\f`, `\\v` become the corresponding control characters,
`\\\\` a backslash, and a backslash before any other non-letter non-digit
character is left alone (both characters kept).  The literal `str.replace`
paths perform no such processing.  (A backslash before an unhandled ASCII
letter or digit makes Python raise `re.error`; replacement texts produced from
configurations with control or non-ASCII characters in alias strings would do
so and are outside the domain of this embedding.) -/

/-- Python replacement-template escape processing (see note above). -/
def reReplEsc : Text → Text
  | [] => []
  | ['\\'] => ['\\']
  | '\\' :: c :: rest =>
    if c = 'n' then '\n' :: reReplEsc rest
    else if c = 't' then '\t' :: reReplEsc rest
    else if c = 'r' then '\r' :: reReplEsc rest
    else if c = 'a' then '\x07' :: reReplEsc rest
    else if c = 'b' then '\x08' :: reReplEsc rest
    else if c = 'f' then '\x0c' :: reReplEsc rest
    else if c = 'v' then '\x0b' :: reReplEsc rest
    else if c = '\\' then '\\' :: reReplEsc rest
    else '\\' :: c :: reReplEsc rest
  | c :: rest => c :: reReplEsc rest

/-- The replacement text actually spliced in on the regex fallback path of
`patch_postfix_support`: `re.subn` turns the backslash-n JavaScript escape of
`postfix_block` into a newline character. -/
def postfix_block_re : Text := reReplEsc postfix_block

/-! ### The two marker-guarded simple patches -/

/-- Status string `already`. -/
def stAlready : String := "already"

/-- Status string `patched`. -/
def stPatched : String := "patched"

/-- Status string `no-match`. -/
def stNoMatch : String := "no-match"

/-- patch.py lines 694-721: `patch_postfix_support(js)`. -/
def patch_postfix_support (js : Text) : Text × String :=
  if containsSub POSTFIX_MARKER js then (js, stAlready)
  else if containsSub literal_line js then
    (replaceFirst literal_line postfix_block js, stPatched)
  else
    match subnFirst postfixAnchorM postfix_block_re js with
    | some t => (t, stPatched)
    | none => (js, stNoMatch)

/-- patch.py lines 724-736: `patch_identity_short(js)`. -/
def patch_identity_short (js : Text) : Text × String :=
  if containsSub IDSHORT_MARKER js then (js, stAlready)
  else
    match subnFirst idshortM (reReplEsc idshort_repl) js with
    | some t => (t, stPatched)
    | none => (js, stNoMatch)

/-! ### `normalize_raw_provider_declaration` (patch.py lines 739-743)

The Python code runs a global
`re.subn(r"(\n[ \t]*let __rawProvider, __rawModel;\n)(?:[ \t]*let __rawProvider, __rawModel;\n)+", r"\1", js)`.
Working line-wise (splitting on `'\n'`) this is: a maximal run of consecutive
lines each consisting of optional blanks/tabs followed by
`let __rawProvider, __rawModel;` is collapsed by deleting every such line after
the first, where (a) the first line of the run must be preceded by a newline
(so a run starting at the very first line of the file keeps its first two
lines: the leading `\n` of the match is the newline terminating line 0), and
(b) a run line with no trailing newline (the last line of the file) is never
deleted, and after a deleted run the line that follows it can never start a new
match because its leading newline was consumed by the previous match.
`dedupScan` processes lines whose preceding newline is still available;
`dedupDrop` deletes the tail of a run. -/

/-- Does a line consist of optional blanks/tabs followed by the raw-provider
declaration (`[ \t]*let __rawProvider, __rawModel;` exactly filling the line)? -/
def declLine (l : Text) : Bool := l.dropWhile isHTab == declStr

mutual

/-- Scan lines whose preceding newline separator is available for a match. -/
def dedupScan : List Text → List Text
  | [] => []
  | [l] => [l]
  | l :: l' :: rest =>
    if declLine l && declLine l' && !rest.isEmpty then l :: dedupDrop rest
    else l :: dedupScan (l' :: rest)

/-- Delete the remaining lines of a run of declaration lines (never the last
line of the file), then emit the line after the run (its preceding newline was
consumed by the match) and resume scanning. -/
def dedupDrop : List Text → List Text
  | [] => []
  | [l] => [l]
  | l :: rest => if declLine l then dedupDrop rest else l :: dedupScan rest

end

/-- Collapse duplicate adjacent declaration lines; the first line of the file
cannot begin a match (no preceding newline). -/
def dedupLines : List Text → List Text
  | [] => []
  | l :: rest => l :: dedupScan rest

/-- Split a text into lines at `'\n'` (`s = joinLines (splitLines s)`). -/
def splitLines : Text → List Text
  | [] => [[]]
  | c :: cs =>
    if c = '\n' then [] :: splitLines cs
    else
      match splitLines cs with
      | [] => [[c]]
      | l :: ls => (c :: l) :: ls

/-- Join lines with `'\n'`. -/
def joinLines : List Text → Text
  | [] => []
  | [l] => l
  | l :: ls => l ++ '\n' :: joinLines ls

/-- patch.py lines 739-743: `normalize_raw_provider_declaration(js)`; the
boolean is Python's `n > 0`, i.e. whether any collapse happened. -/
def normalize_raw_provider_declaration (js : Text) : Text × Bool :=
  let ls := splitLines js
  let ls' := dedupLines ls
  (joinLines ls', !(ls' == ls))

/-- The normalised text alone. -/
def normText (js : Text) : Text := (normalize_raw_provider_declaration js).1

/-! ### Decimal rendering (Python `str(n)` and f-string `{n}` on a Nat) -/

/-- Decimal digit to character. -/
def digitChar : Nat → Char
  | 0 => '0' | 1 => '1' | 2 => '2' | 3 => '3' | 4 => '4'
  | 5 => '5' | 6 => '6' | 7 => '7' | 8 => '8' | 9 => '9'
  | _ => '*'

/-- Fuelled most-significant-first decimal digits. -/
def natDecAux : Nat → Nat → Text
  | 0, _ => []
  | fuel + 1, n =>
    if n < 10 then [digitChar n]
    else natDecAux fuel (n / 10) ++ [digitChar (n % 10)]

/-- Decimal rendering of a natural number, as Python `str(n)`. -/
def natDec (n : Nat) : Text := natDecAux (n + 1) n

/-! ### `to_js_obj` (patch.py lines 753-754)

`json.dumps(data, separators=(",", ":"), sort_keys=True)` on string-to-string
maps (and, for `auth_mode_overrides`, a map of such maps): keys sorted by code
point, compact separators, strings escaped JSON-style with `ensure_ascii`. -/

/-- Lower-case hexadecimal digit. -/
def hexDigit (n : Nat) : Char :=
  if n < 10 then digitChar n
  else if n = 10 then 'a' else if n = 11 then 'b' else if n = 12 then 'c'
  else if n = 13 then 'd' else if n = 14 then 'e' else 'f'

/-- JSON escape of one character (`ensure_ascii=True`; code points beyond the
basic multilingual plane do not occur in the patched configuration data). -/
def jsonEscChar (c : Char) : Text :=
  if c = '"' then ['\\', '"']
  else if c = '\\' then ['\\', '\\']
  else if c = '\n' then ['\\', 'n']
  else if c = '\t' then ['\\', 't']
  else if c = '\r' then ['\\', 'r']
  else if c = '\x08' then ['\\', 'b']
  else if c = '\x0c' then ['\\', 'f']
  else if c.toNat < 32 || c.toNat > 126 then
    ['\\', 'u', hexDigit (c.toNat / 4096 % 16), hexDigit (c.toNat / 256 % 16),
     hexDigit (c.toNat / 16 % 16), hexDigit (c.toNat % 16)]
  else [c]

/-- JSON string literal. -/
def jsonStr (s : Text) : Text := '"' :: (s.map jsonEscChar).flatten ++ ['"']

/-- Code-point lexicographic order on texts (Python `str` comparison). -/
def lexLe : Text → Text → Bool
  | [], _ => true
  | _ :: _, [] => false
  | a :: xs, b :: ys => a.toNat < b.toNat || (a == b && lexLe xs ys)

/-- Insert an entry into a key-sorted association list. -/
def insByKey {α : Type} (x : Text × α) : List (Text × α) → List (Text × α)
  | [] => [x]
  | y :: ys => if lexLe x.1 y.1 then x :: y :: ys else y :: insByKey x ys

/-- Sort an association list by key (`sort_keys=True`). -/
def sortByKey {α : Type} (l : List (Text × α)) : List (Text × α) :=
  l.foldr insByKey []

/-- Join texts with `','`. -/
def joinComma : List Text → Text
  | [] => []
  | [e] => e
  | e :: es => e ++ ',' :: joinComma es

/-- `to_js_obj` on a string-to-string map. -/
def to_js_obj (m : List (Text × Text)) : Text :=
  '{' :: joinComma ((sortByKey m).map fun kv => jsonStr kv.1 ++ ':' :: jsonStr kv.2) ++ ['}']

/-- `to_js_obj` on a map of string-to-string maps (`auth_mode_overrides`). -/
def to_js_obj_nested (m : List (Text × List (Text × Text))) : Text :=
  '{' :: joinComma ((sortByKey m).map fun kv => jsonStr kv.1 ++ ':' :: to_js_obj kv.2) ++ ['}']

/-! ### `patch_modelstamp_v3` (patch.py lines 745-856) -/

/-- The alias configuration as consumed by `patch_modelstamp_v3`: the `cfg`
dict produced by `load_config`, restricted to the projections the function
reads — `cfg.get("model_aliases", {})`, `cfg.get("provider_aliases", {})`,
`cfg.get("source_aliases", {})`, `cfg.get("auth_mode_overrides", {})` (maps
modelled as association lists with distinct keys) and the three positive
`int(cfg["fallback"].get(...))` lengths. -/
structure AliasConfig where
  model_aliases : List (Text × Text)
  provider_aliases : List (Text × Text)
  source_aliases : List (Text × Text)
  auth_mode_overrides : List (Text × List (Text × Text))
  provider_length : Nat
  source_length : Nat
  model_length : Nat

/-- patch.py lines 745-750: `has_safe_provider_auth_logic(js)`. -/
def has_safe_provider_auth_logic (js : Text) : Bool :=
  containsSub safeA js && containsSub safeB js && containsSub safeC js

/-- patch.py lines 773-786: the `on_model_new` replacement text. -/
def on_model_new (cfg : AliasConfig) : Text :=
  onModelPart0 ++ to_js_obj cfg.model_aliases ++ onModelPart1 ++
    natDec cfg.model_length ++ onModelPart2

/-- patch.py lines 795-843: the `rpp_repl` replacement text. -/
def rpp_repl (cfg : AliasConfig) : Text :=
  rppPart0 ++ to_js_obj cfg.provider_aliases ++ rppPart1 ++
    to_js_obj cfg.source_aliases ++ rppPart2 ++
    to_js_obj_nested cfg.auth_mode_overrides ++ rppPart3 ++
    natDec cfg.provider_length ++ rppPart4 ++ natDec cfg.source_length ++ rppPart5

/-- patch.py lines 845-856: the `responsePrefixContextProvider` replacement
stage of `patch_modelstamp_v3`.  `js` is the already-deduplicated input text
(the Python variable `js` after line 758), `newer` the text after the
`onModelSelected` stage. -/
def modelstampRpp (js newer : Text) (cfg : AliasConfig) : Text × String :=
  let rppNew := rpp_repl cfg
  if containsSub rpp_literal newer then
    let fin := normText (replaceFirst rpp_literal rppNew newer)
    (fin, if fin == js then stAlready else stPatched)
  else
    match subnFirst rppM (reReplEsc rppNew) newer with
    | some newest =>
      let fin := normText newest
      (fin, if fin == js then stAlready else stPatched)
    | none =>
      let fin := normText newer
      (fin, if fin == js then stAlready else stPatched)

/-- patch.py lines 757-856: `patch_modelstamp_v3(js, cfg, force)`.  Note that
line 758 rebinds `js` to the deduplicated text, so the final `newest != js`
comparisons are against the deduplicated input. -/
def patch_modelstamp_v3 (js0 : Text) (cfg : AliasConfig) (force : Bool) :
    Text × String :=
  let nd := normalize_raw_provider_declaration js0
  let js := nd.1
  if containsSub MODELSTAMP_V3_MARKER js && !force &&
      has_safe_provider_auth_logic js then
    (js, if nd.2 then stPatched else stAlready)
  else
    match subnFirst onModelM (reReplEsc (on_model_new cfg)) js with
    | some newer => modelstampRpp js newer cfg
    | none =>
      if containsSub MODELSTAMP_V3_MARKER js then modelstampRpp js js cfg
      else (js, stNoMatch)

/-! ### Per-file commit step of `main` (patch.py lines 998-1044) -/

/-- The per-run tally `summary` of `main` (patch.py lines 998-1009). -/
structure Summary where
  postfix_patched : Nat
  postfix_already : Nat
  postfix_no_match : Nat
  idshort_patched : Nat
  idshort_already : Nat
  idshort_no_match : Nat
  modelstamp_patched : Nat
  modelstamp_already : Nat
  modelstamp_no_match : Nat
  syntax_fail : Nat

/-- The three per-patch key families of `bump` (`postfix`, `idshort`,
`modelstamp`). -/
inductive PatchKind where
  | pf
  | ids
  | ms

/-- patch.py lines 859-865: `bump(summary, key, status)`. -/
def bump (summary : Summary) (kind : PatchKind) (status : String) : Summary :=
  match kind with
  | PatchKind.pf =>
    if status = stPatched then { summary with postfix_patched := summary.postfix_patched + 1 }
    else if status = stAlready then { summary with postfix_already := summary.postfix_already + 1 }
    else { summary with postfix_no_match := summary.postfix_no_match + 1 }
  | PatchKind.ids =>
    if status = stPatched then { summary with idshort_patched := summary.idshort_patched + 1 }
    else if status = stAlready then { summary with idshort_already := summary.idshort_already + 1 }
    else { summary with idshort_no_match := summary.idshort_no_match + 1 }
  | PatchKind.ms =>
    if status = stPatched then { summary with modelstamp_patched := summary.modelstamp_patched + 1 }
    else if status = stAlready then { summary with modelstamp_already := summary.modelstamp_already + 1 }
    else { summary with modelstamp_no_match := summary.modelstamp_no_match + 1 }

/-- patch.py lines 1016-1044, the body of the per-file loop of `main` in write
mode: apply the three patches to the file text `js`, tally the statuses, and
when the result differs from the original, write it and run the syntax
validator on the written file; on validation failure restore the original
content and count a `syntax_fail`.  The first component of the result is the
file's final content, the validator is modelled as a predicate on the written
content. -/
def process_file (cfg : AliasConfig) (force noWrite : Bool)
    (validator : Text → Bool) (js : Text) (summary : Summary) : Text × Summary :=
  let r1 := patch_postfix_support js
  let r2 := patch_identity_short r1.1
  let r3 := patch_modelstamp_v3 r2.1 cfg force
  let js4 := r3.1
  let summary := bump (bump (bump summary PatchKind.pf r1.2) PatchKind.ids r2.2) PatchKind.ms r3.2
  if noWrite then (js, summary)
  else if js4 == js then (js, summary)
  else if validator js4 then (js4, summary)
  else (js, { summary with syntax_fail := summary.syntax_fail + 1 })

/-! ### Alias-resolver word constants -/

/-- The string `latest`. -/
def wLatest_S : String := "latest"

/-- Character-list form of `wLatest_S`. -/
def wLatest : Text := wLatest_S.toList

/-- The string `preview`. -/
def wPreview_S : String := "preview"

/-- Character-list form of `wPreview_S`. -/
def wPreview : Text := wPreview_S.toList

/-- The string `claude-`. -/
def wClaudeDash_S : String := "claude-"

/-- Character-list form of `wClaudeDash_S`. -/
def wClaudeDash : Text := wClaudeDash_S.toList

/-- The string `claude`. -/
def wClaude_S : String := "claude"

/-- Character-list form of `wClaude_S`. -/
def wClaude : Text := wClaude_S.toList

/-- The string `gpt`. -/
def wGpt_S : String := "gpt"

/-- Character-list form of `wGpt_S`. -/
def wGpt : Text := wGpt_S.toList

/-- The string `sonnet`. -/
def wSonnet_S : String := "sonnet"

/-- Character-list form of `wSonnet_S`. -/
def wSonnet : Text := wSonnet_S.toList

/-- The string `opus`. -/
def wOpus_S : String := "opus"

/-- Character-list form of `wOpus_S`. -/
def wOpus : Text := wOpus_S.toList

/-- The string `haiku`. -/
def wHaiku_S : String := "haiku"

/-- Character-list form of `wHaiku_S`. -/
def wHaiku : Text := wHaiku_S.toList

/-- The string `cl`. -/
def wCl_S : String := "cl"

/-- Character-list form of `wCl_S`. -/
def wCl : Text := wCl_S.toList

/-- The string `md`. -/
def wMd_S : String := "md"

/-- Character-list form of `wMd_S`. -/
def wMd : Text := wMd_S.toList

/-- The string `turbo`. -/
def wTurbo_S : String := "turbo"

/-- Character-list form of `wTurbo_S`. -/
def wTurbo : Text := wTurbo_S.toList

/-- The string `flash`. -/
def wFlash_S : String := "flash"

/-- Character-list form of `wFlash_S`. -/
def wFlash : Text := wFlash_S.toList

/-- The string `pro`. -/
def wPro_S : String := "pro"

/-- Character-list form of `wPro_S`. -/
def wPro : Text := wPro_S.toList

/-- The string `plus`. -/
def wPlus_S : String := "plus"

/-- Character-list form of `wPlus_S`. -/
def wPlus : Text := wPlus_S.toList

/-- The string `mini`. -/
def wMini_S : String := "mini"

/-- Character-list form of `wMini_S`. -/
def wMini : Text := wMini_S.toList

/-- The string `max`. -/
def wMax_S : String := "max"

/-- Character-list form of `wMax_S`. -/
def wMax : Text := wMax_S.toList

/-- The string `maverick`. -/
def wMaverick_S : String := "maverick"

/-- Character-list form of `wMaverick_S`. -/
def wMaverick : Text := wMaverick_S.toList

/-- The string `think`. -/
def wThink_S : String := "think"

/-- Character-list form of `wThink_S`. -/
def wThink : Text := wThink_S.toList

/-- The string `reason`. -/
def wReason_S : String := "reason"

/-- Character-list form of `wReason_S`. -/
def wReason : Text := wReason_S.toList

/-- The string `coder`. -/
def wCoder_S : String := "coder"

/-- Character-list form of `wCoder_S`. -/
def wCoder : Text := wCoder_S.toList

/-- The string `codex`. -/
def wCodex_S : String := "codex"

/-- Character-list form of `wCodex_S`. -/
def wCodex : Text := wCodex_S.toList

/-- The string `instruct`. -/
def wInstruct_S : String := "instruct"

/-- Character-list form of `wInstruct_S`. -/
def wInstruct : Text := wInstruct_S.toList

/-- The string `vision`. -/
def wVision_S : String := "vision"

/-- Character-list form of `wVision_S`. -/
def wVision : Text := wVision_S.toList

/-- The string `large`. -/
def wLarge_S : String := "large"

/-- Character-list form of `wLarge_S`. -/
def wLarge : Text := wLarge_S.toList

/-- The string `small`. -/
def wSmall_S : String := "small"

/-- Character-list form of `wSmall_S`. -/
def wSmall : Text := wSmall_S.toList

/-- The string `scout`. -/
def wScout_S : String := "scout"

/-- Character-list form of `wScout_S`. -/
def wScout : Text := wScout_S.toList

/-- The string `tb`. -/
def hTb_S : String := "tb"

/-- Character-list form of `hTb_S`. -/
def hTb : Text := hTb_S.toList

/-- The string `f`. -/
def hF_S : String := "f"

/-- Character-list form of `hF_S`. -/
def hF : Text := hF_S.toList

/-- The string `p`. -/
def hP_S : String := "p"

/-- Character-list form of `hP_S`. -/
def hP : Text := hP_S.toList

/-- The string `m`. -/
def hM_S : String := "m"

/-- Character-list form of `hM_S`. -/
def hM : Text := hM_S.toList

/-- The string `t`. -/
def hT_S : String := "t"

/-- Character-list form of `hT_S`. -/
def hT : Text := hT_S.toList

/-- The string `c`. -/
def hC_S : String := "c"

/-- Character-list form of `hC_S`. -/
def hC : Text := hC_S.toList

/-- The string `i`. -/
def hI_S : String := "i"

/-- Character-list form of `hI_S`. -/
def hI : Text := hI_S.toList

/-- The string `v`. -/
def hV_S : String := "v"

/-- Character-list form of `hV_S`. -/
def hV : Text := hV_S.toList

/-- The string `l`. -/
def hL_S : String := "l"

/-- Character-list form of `hL_S`. -/
def hL : Text := hL_S.toList

/-- The string `s`. -/
def hS_S : String := "s"

/-- Character-list form of `hS_S`. -/
def hS : Text := hS_S.toList

/-- `ALIAS_PREFIX_MAP` key `sonnet`. -/
def apmKSonnet_S : String := "sonnet"

/-- Character-list form of `apmKSonnet_S`. -/
def apmKSonnet : Text := apmKSonnet_S.toList

/-- `ALIAS_PREFIX_MAP` value for `sonnet`. -/
def apmVSonnet_S : String := "s"

/-- Character-list form of `apmVSonnet_S`. -/
def apmVSonnet : Text := apmVSonnet_S.toList

/-- `ALIAS_PREFIX_MAP` key `opus`. -/
def apmKOpus_S : String := "opus"

/-- Character-list form of `apmKOpus_S`. -/
def apmKOpus : Text := apmKOpus_S.toList

/-- `ALIAS_PREFIX_MAP` value for `opus`. -/
def apmVOpus_S : String := "o"

/-- Character-list form of `apmVOpus_S`. -/
def apmVOpus : Text := apmVOpus_S.toList

/-- `ALIAS_PREFIX_MAP` key `haiku`. -/
def apmKHaiku_S : String := "haiku"

/-- Character-list form of `apmKHaiku_S`. -/
def apmKHaiku : Text := apmKHaiku_S.toList

/-- `ALIAS_PREFIX_MAP` value for `haiku`. -/
def apmVHaiku_S : String := "h"

/-- Character-list form of `apmVHaiku_S`. -/
def apmVHaiku : Text := apmVHaiku_S.toList

/-- `ALIAS_PREFIX_MAP` key `gemini`. -/
def apmKGemini_S : String := "gemini"

/-- Character-list form of `apmKGemini_S`. -/
def apmKGemini : Text := apmKGemini_S.toList

/-- `ALIAS_PREFIX_MAP` value for `gemini`. -/
def apmVGemini_S : String := "g"

/-- Character-list form of `apmVGemini_S`. -/
def apmVGemini : Text := apmVGemini_S.toList

/-- `ALIAS_PREFIX_MAP` key `qwen`. -/
def apmKQwen_S : String := "qwen"

/-- Character-list form of `apmKQwen_S`. -/
def apmKQwen : Text := apmKQwen_S.toList

/-- `ALIAS_PREFIX_MAP` value for `qwen`. -/
def apmVQwen_S : String := "q"

/-- Character-list form of `apmVQwen_S`. -/
def apmVQwen : Text := apmVQwen_S.toList

/-- `ALIAS_PREFIX_MAP` key `glm`. -/
def apmKGlm_S : String := "glm"

/-- Character-list form of `apmKGlm_S`. -/
def apmKGlm : Text := apmKGlm_S.toList

/-- `ALIAS_PREFIX_MAP` value for `glm`. -/
def apmVGlm_S : String := "g"

/-- Character-list form of `apmVGlm_S`. -/
def apmVGlm : Text := apmVGlm_S.toList

/-- `ALIAS_PREFIX_MAP` key `deepseek`. -/
def apmKDeepseek_S : String := "deepseek"

/-- Character-list form of `apmKDeepseek_S`. -/
def apmKDeepseek : Text := apmKDeepseek_S.toList

/-- `ALIAS_PREFIX_MAP` value for `deepseek`. -/
def apmVDeepseek_S : String := "ds"

/-- Character-list form of `apmVDeepseek_S`. -/
def apmVDeepseek : Text := apmVDeepseek_S.toList

/-- `ALIAS_PREFIX_MAP` key `llama`. -/
def apmKLlama_S : String := "llama"

/-- Character-list form of `apmKLlama_S`. -/
def apmKLlama : Text := apmKLlama_S.toList

/-- `ALIAS_PREFIX_MAP` value for `llama`. -/
def apmVLlama_S : String := "l"

/-- Character-list form of `apmVLlama_S`. -/
def apmVLlama : Text := apmVLlama_S.toList

/-- `ALIAS_PREFIX_MAP` key `mistral`. -/
def apmKMistral_S : String := "mistral"

/-- Character-list form of `apmKMistral_S`. -/
def apmKMistral : Text := apmKMistral_S.toList

/-- `ALIAS_PREFIX_MAP` value for `mistral`. -/
def apmVMistral_S : String := "ms"

/-- Character-list form of `apmVMistral_S`. -/
def apmVMistral : Text := apmVMistral_S.toList

/-- `ALIAS_PREFIX_MAP` key `kimi`. -/
def apmKKimi_S : String := "kimi"

/-- Character-list form of `apmKKimi_S`. -/
def apmKKimi : Text := apmKKimi_S.toList

/-- `ALIAS_PREFIX_MAP` value for `kimi`. -/
def apmVKimi_S : String := "k"

/-- Character-list form of `apmVKimi_S`. -/
def apmVKimi : Text := apmVKimi_S.toList

/-- `ALIAS_PREFIX_MAP` key `minimax`. -/
def apmKMinimax_S : String := "minimax"

/-- Character-list form of `apmKMinimax_S`. -/
def apmKMinimax : Text := apmKMinimax_S.toList

/-- `ALIAS_PREFIX_MAP` value for `minimax`. -/
def apmVMinimax_S : String := "m"

/-- Character-list form of `apmVMinimax_S`. -/
def apmVMinimax : Text := apmVMinimax_S.toList

/-- `ALIAS_PREFIX_MAP` key `grok`. -/
def apmKGrok_S : String := "grok"

/-- Character-list form of `apmKGrok_S`. -/
def apmKGrok : Text := apmKGrok_S.toList

/-- `ALIAS_PREFIX_MAP` value for `grok`. -/
def apmVGrok_S : String := "g"

/-- Character-list form of `apmVGrok_S`. -/
def apmVGrok : Text := apmVGrok_S.toList

/-- `ALIAS_PREFIX_MAP` key `seed`. -/
def apmKSeed_S : String := "seed"

/-- Character-list form of `apmKSeed_S`. -/
def apmKSeed : Text := apmKSeed_S.toList

/-- `ALIAS_PREFIX_MAP` value for `seed`. -/
def apmVSeed_S : String := "sd"

/-- Character-list form of `apmVSeed_S`. -/
def apmVSeed : Text := apmVSeed_S.toList

/-- `ALIAS_PREFIX_MAP` key `step`. -/
def apmKStep_S : String := "step"

/-- Character-list form of `apmKStep_S`. -/
def apmKStep : Text := apmKStep_S.toList

/-- `ALIAS_PREFIX_MAP` value for `step`. -/
def apmVStep_S : String := "sf"

/-- Character-list form of `apmVStep_S`. -/
def apmVStep : Text := apmVStep_S.toList

/-- `ALIAS_PREFIX_MAP` key `trinity`. -/
def apmKTrinity_S : String := "trinity"

/-- Character-list form of `apmKTrinity_S`. -/
def apmKTrinity : Text := apmKTrinity_S.toList

/-- `ALIAS_PREFIX_MAP` value for `trinity`. -/
def apmVTrinity_S : String := "tr"

/-- Character-list form of `apmVTrinity_S`. -/
def apmVTrinity : Text := apmVTrinity_S.toList

/-- `ALIAS_PREFIX_MAP` key `opencode`. -/
def apmKOpencode_S : String := "opencode"

/-- Character-list form of `apmKOpencode_S`. -/
def apmKOpencode : Text := apmKOpencode_S.toList

/-- `ALIAS_PREFIX_MAP` value for `opencode`. -/
def apmVOpencode_S : String := "oc"

/-- Character-list form of `apmVOpencode_S`. -/
def apmVOpencode : Text := apmVOpencode_S.toList

/-- patch.py lines 145-162: `ALIAS_PREFIX_MAP`. -/
def ALIAS_PREFIX_MAP : List (Text × Text) :=
  [(apmKSonnet, apmVSonnet), (apmKOpus, apmVOpus), (apmKHaiku, apmVHaiku), (apmKGemini, apmVGemini), (apmKQwen, apmVQwen), (apmKGlm, apmVGlm), (apmKDeepseek, apmVDeepseek), (apmKLlama, apmVLlama), (apmKMistral, apmVMistral), (apmKKimi, apmVKimi), (apmKMinimax, apmVMinimax), (apmKGrok, apmVGrok), (apmKSeed, apmVSeed), (apmKStep, apmVStep), (apmKTrinity, apmVTrinity), (apmKOpencode, apmVOpencode)]


/-! ### Alias resolver (patch.py lines 265-315 and 328-473)

Character classes are ASCII here: the model identifiers, alias tables and
derived aliases this program handles are ASCII strings (Python's `str.strip`,
`str.lower`, `str.isalnum` and the `[a-z]`/`[0-9]` regex classes coincide with
the ASCII versions on them). -/

/-- ASCII decimal digit. -/
def isDigit (c : Char) : Bool := '0' ≤ c && c ≤ '9'

/-- ASCII lower-case letter. -/
def isLowerAlpha (c : Char) : Bool := 'a' ≤ c && c ≤ 'z'

/-- ASCII upper-case letter. -/
def isUpperAlpha (c : Char) : Bool := 'A' ≤ c && c ≤ 'Z'

/-- ASCII alphanumeric (Python `str.isalnum` on ASCII text). -/
def isAlnum (c : Char) : Bool := isDigit c || isLowerAlpha c || isUpperAlpha c

/-- Python `str.strip()` (ASCII whitespace). -/
def pyStrip (s : Text) : Text :=
  ((s.dropWhile isPyWs).reverse.dropWhile isPyWs).reverse

/-- Python `str.lower()` (ASCII). -/
def pyLower (s : Text) : Text :=
  s.map fun c => if isUpperAlpha c then Char.ofNat (c.toNat + 32) else c

/-- Python `s.split(":", 1)[0]`. -/
def takeUntilColon (s : Text) : Text := s.takeWhile fun c => !(c = ':')

/-- One step of `re.sub(r"-(?:\d{8}|latest)$", "", model, flags=re.IGNORECASE)`
(`none` when the suffix pattern does not match, i.e. the sub changed nothing). -/
def stripOnceDL (s : Text) : Option Text :=
  let n := s.length
  if 7 ≤ n && pyLower (s.drop (n - 7)) == '-' :: wLatest then some (s.take (n - 7))
  else if 9 ≤ n && pfx ['-'] (s.drop (n - 9)) && ((s.drop (n - 9)).drop 1).all isDigit then
    some (s.take (n - 9))
  else none

/-- The `while` loop applying `stripOnceDL` until it changes nothing
(each step removes at least seven characters, so the length is enough fuel). -/
def stripDLLoop : Nat → Text → Text
  | 0, s => s
  | fuel + 1, s =>
    match stripOnceDL s with
    | some s' => stripDLLoop fuel s'
    | none => s

/-- `re.sub(r"-(\d+)\.(\d+)$", r"-\1-\2", model)`: rewrite a trailing dashed
dot-version. -/
def claudeVerRewrite (s : Text) : Text :=
  let r := s.reverse
  let d2 := r.takeWhile isDigit
  let r1 := r.drop d2.length
  match r1 with
  | '.' :: r2 =>
    let d1 := r2.takeWhile isDigit
    let r3 := r2.drop d1.length
    match d2, d1, r3 with
    | _ :: _, _ :: _, '-' :: _ => r3.reverse ++ d1.reverse ++ '-' :: d2.reverse
    | _, _, _ => s
  | _ => s

/-- patch.py lines 265-277: `_strip_model_suffixes(model_name)`. -/
def _strip_model_suffixes (model_name : Text) : Text :=
  let model := pyStrip model_name
  if model.isEmpty then model
  else
    let model := takeUntilColon model
    let model := stripDLLoop model.length model
    if pfx wClaudeDash model then claudeVerRewrite model else model

/-- Python `dict.get` on an association list with distinct keys. -/
def dictGet {α : Type} (m : List (Text × α)) (k : Text) : Option α :=
  (m.find? fun kv => kv.1 == k).map fun kv => kv.2

/-- Python `s.replace(".", "-")`. -/
def dotsToDashes (s : Text) : Text := s.map fun c => if c = '.' then '-' else c

/-- Python `s.replace("-", ".")`. -/
def dashesToDots (s : Text) : Text := s.map fun c => if c = '-' then '.' else c

/-- patch.py lines 299-305: `_model_alias_candidates(model_name)`. -/
def _model_alias_candidates (model_name : Text) : List Text :=
  let base := pyLower (pyStrip (_strip_model_suffixes model_name))
  [base, dotsToDashes base, dashesToDots base].foldl
    (fun out c => if !c.isEmpty && !out.contains c then out ++ [c] else out) []

/-- Try the candidates in order against the alias map, returning the first
mapped value that is non-blank after trimming. -/
def lookupCands : List Text → List (Text × Text) → Option Text
  | [], _ => none
  | c :: cs, m =>
    match dictGet m c with
    | some v =>
      let cleaned := pyStrip v
      if cleaned.isEmpty then lookupCands cs m else some cleaned
    | none => lookupCands cs m

/-- patch.py lines 308-315: `_lookup_alias(model_name, alias_map)` (the map's
values are strings here, so the `isinstance(alias, str)` guard always holds). -/
def _lookup_alias (model_name : Text) (alias_map : List (Text × Text)) : Option Text :=
  lookupCands (_model_alias_candidates model_name) alias_map

/-- One step of `re.sub(r"-(?:\d{8}|latest|preview)$", "", name, flags=re.IGNORECASE)`
used inside `derive_alias`. -/
def stripOnceDLP (s : Text) : Option Text :=
  let n := s.length
  if 7 ≤ n && pyLower (s.drop (n - 7)) == '-' :: wLatest then some (s.take (n - 7))
  else if 8 ≤ n && pyLower (s.drop (n - 8)) == '-' :: wPreview then some (s.take (n - 8))
  else if 9 ≤ n && pfx ['-'] (s.drop (n - 9)) && ((s.drop (n - 9)).drop 1).all isDigit then
    some (s.take (n - 9))
  else none

/-- The `while` loop applying `stripOnceDLP` until it changes nothing. -/
def stripDLPLoop : Nat → Text → Text
  | 0, s => s
  | fuel + 1, s =>
    match stripOnceDLP s with
    | some s' => stripDLPLoop fuel s'
    | none => s

/-- Split on a character class (like `splitLines`, parameterised). -/
def splitOnP (p : Char → Bool) : Text → List Text
  | [] => [[]]
  | c :: cs =>
    if p c then [] :: splitOnP p cs
    else
      match splitOnP p cs with
      | [] => [[c]]
      | l :: ls => (c :: l) :: ls

/-- `-` or `.`. -/
def isDashDot (c : Char) : Bool := c = '-' || c = '.'

/-- `[seg for seg in re.split(r"[-.]+", name) if seg]`. -/
def segsOf (name : Text) : List Text :=
  (splitOnP isDashDot name).filter fun l => !l.isEmpty

/-- patch.py lines 328-371: `_extract_version_from_segments(segments)`
(the loop state: `started` flag and accumulated `parts`; segments contain no
dots, having been split on `[-.]+`, so the `(?:\.\d+)*` groups of the `r`/`v`
patterns are vacuous). -/
def evsAux : List Text → Bool → Text → Text
  | [], _, parts => parts
  | seg :: rest, started, parts =>
    let token := pyLower seg
    if started then
      if !token.isEmpty && token.all isDigit then
        if 4 ≤ token.length && pfx ['0'] token then parts
        else evsAux rest true (parts ++ token)
      else parts
    else
      if pfx ['r'] token && !(token.drop 1).isEmpty && (token.drop 1).all isDigit then
        'r' :: token.drop 1
      else if pfx ['v'] token && !(token.drop 1).isEmpty && (token.drop 1).all isDigit then
        evsAux rest true (parts ++ token.drop 1)
      else if !token.isEmpty && token.all isDigit then
        evsAux rest true (parts ++ token)
      else
        let ds := token.takeWhile isDigit
        let ls := token.drop ds.length
        if !ds.isEmpty && !ls.isEmpty && ls.all isLowerAlpha then
          evsAux rest true (parts ++ ds)
        else
          let ls2 := token.takeWhile isLowerAlpha
          let ds2 := token.drop ls2.length
          if !ls2.isEmpty && !ds2.isEmpty && ds2.all isDigit then
            evsAux rest true (parts ++ ds2)
          else evsAux rest false parts

/-- `_extract_version_from_segments(segments)`. -/
def _extract_version_from_segments (segments : List Text) : Text :=
  evsAux segments false []

/-- patch.py lines 374-396: `_segment_variant_hint(segment)`. -/
def _segment_variant_hint (segment : Text) : Text :=
  let token := pyLower segment
  if containsSub wTurbo token then hTb
  else if containsSub wFlash token then hF
  else if token == wPro || token == wPlus then hP
  else if token == wMini || token == wMax || token == wMaverick then hM
  else if containsSub wThink token || containsSub wReason token then hT
  else if containsSub wCoder token || containsSub wCodex token then hC
  else if containsSub wInstruct token then hI
  else if containsSub wVision token then hV
  else if token == wLarge then hL
  else if token == wSmall || token == wScout then hS
  else []

/-- Python `alias or "md"` (patch.py line 473). -/
def pyOrMd (al : Text) : Text := if al.isEmpty then wMd else al

/-- patch.py lines 414-473: the body of `derive_alias` from the segment split
onward (`name` is the suffix-stripped lowered name, used for the `cleaned`
padding; `pr_si` bundles the Python variables `prefix` and `start_idx`). -/
def derive_alias_from_segs (name : Text) : List Text → Text
  | [] => wMd
  | first :: segTail =>
      let letters := first.takeWhile isLowerAlpha
      let restF := first.drop letters.length
      let isFam := !letters.isEmpty && restF.all isDigit
      let family := if isFam then letters else first.filter isLowerAlpha
      let family_version := if isFam then restF else []
      let pr_si : Text × Nat :=
        if family == wClaude then
          let role := match segTail with | [] => [] | s :: _ => pyLower s
          let dflt := if (family.take 2).isEmpty then wCl else family.take 2
          ((dictGet ALIAS_PREFIX_MAP role).getD dflt,
           if role == wSonnet || role == wOpus || role == wHaiku then 2 else 1)
        else if family == wGpt then ([], 1)
        else
          match dictGet ALIAS_PREFIX_MAP family with
          | some p => (p, 1)
          | none =>
            let second := match segTail with
              | [] => []
              | s :: _ => (pyLower s).filter isLowerAlpha
            if !family.isEmpty && family.length ≤ 2 && !second.isEmpty then
              (family.take 1 ++ second.take 1, 1)
            else
              let seed := if family.isEmpty then first.filter isLowerAlpha else family
              (if (seed.take 2).isEmpty then wMd else seed.take 2, 1)
      let remaining := (first :: segTail).drop pr_si.2
      let version := family_version ++ _extract_version_from_segments remaining
      let hints := remaining.foldl
        (fun hs seg =>
          let h := _segment_variant_hint seg
          if !h.isEmpty && !hs.contains h then hs ++ [h] else hs)
        []
      let variant := hints.flatten
      let al := pyLower (pr_si.1 ++ version ++ variant)
      let al :=
        if 5 < al.length then
          let prefix_part := pr_si.1.take 2
          let variant_part := variant.take 2
          let room := 5 - prefix_part.length - variant_part.length
          let vpRoom : Text × Nat :=
            if room = 0 && 1 < variant_part.length then
              (variant_part.take 1, 5 - prefix_part.length - 1)
            else (variant_part, room)
          (prefix_part ++ version.take vpRoom.2 ++ vpRoom.1).take 5
        else al
      let cleaned := name.filter isAlnum
      let al :=
        if al.length < 2 then
          if !cleaned.isEmpty then (al ++ cleaned).take 2
          else (al ++ wMd).take 2
        else al
      pyOrMd al

/-- patch.py lines 399-473: `derive_alias(model_name)`. -/
def derive_alias (model_name : Text) : Text :=
  let name := pyLower (pyStrip (_strip_model_suffixes model_name))
  if name.isEmpty then wMd
  else
    let name1 := takeUntilColon name
    let name2 := stripDLPLoop name1.length name1
    derive_alias_from_segs name2 (segsOf name2)

/-! ### `sync_models` alias assignment (patch.py lines 519-549) -/

/-- Python dict assignment `m[k] = v` on an association list: replace in place
or append. -/
def dictSet {α : Type} : List (Text × α) → Text → α → List (Text × α)
  | [], k, v => [(k, v)]
  | kv :: rest, k, v => if kv.1 == k then (k, v) :: rest else kv :: dictSet rest k v

/-- patch.py lines 542-545: the collision `while` loop (fuelled; among the
`used.length + 1` candidates `base ++ natDec k`, `k = 2, 3, …`, at least one is
free, so the fuel is enough). -/
def collideLoop (base : Text) (used : List Text) : Nat → Nat → Text
  | 0, k => base ++ natDec k
  | fuel + 1, k =>
    let a := base ++ natDec k
    if used.contains a then collideLoop base used fuel (k + 1) else a

/-- patch.py lines 541-545: starting from `alias = base_alias`, append an
incrementing integer suffix (starting at 2) while the alias is in use. -/
def resolveCollision (base : Text) (used : List Text) : Text :=
  if used.contains base then collideLoop base used (used.length + 1) 2 else base

/-- Loop state of the `for model in short_models` loop of `sync_models`
(patch.py lines 535-549): the mutating `custom_aliases` map, the
`used_alias_values` set (modelled as a list, membership only) and the
`derived` assignment list. -/
structure SyncState where
  custom : List (Text × Text)
  used : List Text
  derived : List (Text × Text)

/-- patch.py lines 527-533: `used_alias_values` built from the trimmed
non-blank values of the builtin and custom alias maps (all values are
strings here, so the `isinstance` guard always holds). -/
def usedInit (builtin custom : List (Text × Text)) : List Text :=
  ((builtin ++ custom).map fun kv => pyStrip kv.2).filter fun v => !v.isEmpty

/-- patch.py lines 536-549: one iteration of the model loop. -/
def sync_step (builtin : List (Text × Text)) (st : SyncState) (model : Text) :
    SyncState :=
  if (_lookup_alias model builtin).isSome || (_lookup_alias model st.custom).isSome then st
  else
    let a := resolveCollision (derive_alias model) st.used
    { custom := dictSet st.custom model a
      used := st.used ++ [a]
      derived := st.derived ++ [(model, a)] }

/-- The `derived` list produced by one `sync_models` resolution batch over
`short_models`, given the builtin and user alias maps. -/
def sync_models_derived (models : List Text) (builtin custom : List (Text × Text)) :
    List (Text × Text) :=
  (models.foldl (sync_step builtin)
    { custom := custom, used := usedInit builtin custom, derived := [] }).derived

/-! ### JSON configuration model and `load_config` (patch.py lines 167-196) -/

/-! A parsed JSON value as handled by `load_config` (JSON numbers with a
fractional part do not occur in the claims considered and are not modelled;
they would behave like the other non-integer values in every check below).
Objects are a purpose-built list type `JObj` so that all functions below are
structurally recursive and compute by kernel reduction. -/

mutual

/-- A parsed JSON value. -/
inductive JVal where
  | jnull : JVal
  | jbool : Bool → JVal
  | jint : Int → JVal
  | jstr : Text → JVal
  | jarr : List JVal → JVal
  | jobj : JObj → JVal

/-- A parsed JSON object: a sequence of key-value fields. -/
inductive JObj where
  | onil : JObj
  | ocons : Text → JVal → JObj → JObj

end

/-- Python `dict.get(key)` on an object. -/
def objGet : JObj → Text → Option JVal
  | JObj.onil, _ => none
  | JObj.ocons k v rest, key => if k == key then some v else objGet rest key

/-- Python dict assignment `d[key] = v`: replace in place or append. -/
def objSet : JObj → Text → JVal → JObj
  | JObj.onil, key, v => JObj.ocons key v JObj.onil
  | JObj.ocons k v0 rest, key, v =>
    if k == key then JObj.ocons k v rest else JObj.ocons k v0 (objSet rest key v)

/-- Build an object from an association list. -/
def objOfList : List (Text × JVal) → JObj
  | [] => JObj.onil
  | (k, v) :: rest => JObj.ocons k v (objOfList rest)

mutual

/-- patch.py lines 170-173: the merged value stored for one key —
`deep_merge(out[key], value)` when both the present value and the incoming one
are dicts, the incoming value otherwise. -/
def deepMergeV (bv : Option JVal) : JVal → JVal
  | JVal.jobj i2 =>
    match bv with
    | some (JVal.jobj b2) => JVal.jobj (deepMergeO b2 i2)
    | _ => JVal.jobj i2
  | v => v

/-- patch.py lines 167-174: `deep_merge(base, incoming)` on objects
(`out = dict(base)`, then the key loop). -/
def deepMergeO (bs : JObj) : JObj → JObj
  | JObj.onil => bs
  | JObj.ocons k v rest => deepMergeO (objSet bs k (deepMergeV (objGet bs k) v)) rest

end

/-- `deep_merge` on two JSON values (its call sites only pass objects;
`.items()` on a non-dict would raise in Python). -/
def deep_merge : JVal → JVal → JVal
  | JVal.jobj bs, JVal.jobj ifs => JVal.jobj (deepMergeO bs ifs)
  | _, i => i

/-! ### `DEFAULT_CONFIG` (patch.py lines 28-143) -/

/-- `DEFAULT_CONFIG` string `response_prefix_template`. -/
def dcs0_S : String := "response_prefix_template"

/-- Character-list form of `dcs0_S`. -/
def dcs0 : Text := dcs0_S.toList

/-- `DEFAULT_CONFIG` string `postfix:{provider}/{model}@{identityname}`. -/
def dcs1_S : String := "postfix:\x7bprovider\x7d/\x7bmodel\x7d@\x7bidentityname\x7d"

/-- Character-list form of `dcs1_S`. -/
def dcs1 : Text := dcs1_S.toList

/-- `DEFAULT_CONFIG` string `model_aliases`. -/
def dcs2_S : String := "model_aliases"

/-- Character-list form of `dcs2_S`. -/
def dcs2 : Text := dcs2_S.toList

/-- `DEFAULT_CONFIG` string `claude-opus-4-6`. -/
def dcs3_S : String := "claude-opus-4-6"

/-- Character-list form of `dcs3_S`. -/
def dcs3 : Text := dcs3_S.toList

/-- `DEFAULT_CONFIG` string `o46`. -/
def dcs4_S : String := "o46"

/-- Character-list form of `dcs4_S`. -/
def dcs4 : Text := dcs4_S.toList

/-- `DEFAULT_CONFIG` string `claude-opus-4.6`. -/
def dcs5_S : String := "claude-opus-4.6"

/-- Character-list form of `dcs5_S`. -/
def dcs5 : Text := dcs5_S.toList

/-- `DEFAULT_CONFIG` string `claude-sonnet-4-6`. -/
def dcs6_S : String := "claude-sonnet-4-6"

/-- Character-list form of `dcs6_S`. -/
def dcs6 : Text := dcs6_S.toList

/-- `DEFAULT_CONFIG` string `s46-1m`. -/
def dcs7_S : String := "s46-1m"

/-- Character-list form of `dcs7_S`. -/
def dcs7 : Text := dcs7_S.toList

/-- `DEFAULT_CONFIG` string `claude-sonnet-4.6`. -/
def dcs8_S : String := "claude-sonnet-4.6"

/-- Character-list form of `dcs8_S`. -/
def dcs8 : Text := dcs8_S.toList

/-- `DEFAULT_CONFIG` string `s46`. -/
def dcs9_S : String := "s46"

/-- Character-list form of `dcs9_S`. -/
def dcs9 : Text := dcs9_S.toList

/-- `DEFAULT_CONFIG` string `claude-sonnet-4-5`. -/
def dcs10_S : String := "claude-sonnet-4-5"

/-- Character-list form of `dcs10_S`. -/
def dcs10 : Text := dcs10_S.toList

/-- `DEFAULT_CONFIG` string `s45`. -/
def dcs11_S : String := "s45"

/-- Character-list form of `dcs11_S`. -/
def dcs11 : Text := dcs11_S.toList

/-- `DEFAULT_CONFIG` string `claude-haiku-4-5`. -/
def dcs12_S : String := "claude-haiku-4-5"

/-- Character-list form of `dcs12_S`. -/
def dcs12 : Text := dcs12_S.toList

/-- `DEFAULT_CONFIG` string `h45`. -/
def dcs13_S : String := "h45"

/-- Character-list form of `dcs13_S`. -/
def dcs13 : Text := dcs13_S.toList

/-- `DEFAULT_CONFIG` string `claude-haiku-4-6`. -/
def dcs14_S : String := "claude-haiku-4-6"

/-- Character-list form of `dcs14_S`. -/
def dcs14 : Text := dcs14_S.toList

/-- `DEFAULT_CONFIG` string `h46`. -/
def dcs15_S : String := "h46"

/-- Character-list form of `dcs15_S`. -/
def dcs15 : Text := dcs15_S.toList

/-- `DEFAULT_CONFIG` string `claude-haiku-4.6`. -/
def dcs16_S : String := "claude-haiku-4.6"

/-- Character-list form of `dcs16_S`. -/
def dcs16 : Text := dcs16_S.toList

/-- `DEFAULT_CONFIG` string `gpt-5.3-codex`. -/
def dcs17_S : String := "gpt-5.3-codex"

/-- Character-list form of `dcs17_S`. -/
def dcs17 : Text := dcs17_S.toList

/-- `DEFAULT_CONFIG` string `53c`. -/
def dcs18_S : String := "53c"

/-- Character-list form of `dcs18_S`. -/
def dcs18 : Text := dcs18_S.toList

/-- `DEFAULT_CONFIG` string `gpt-5.3-codex-spark`. -/
def dcs19_S : String := "gpt-5.3-codex-spark"

/-- Character-list form of `dcs19_S`. -/
def dcs19 : Text := dcs19_S.toList

/-- `DEFAULT_CONFIG` string `53cs`. -/
def dcs20_S : String := "53cs"

/-- Character-list form of `dcs20_S`. -/
def dcs20 : Text := dcs20_S.toList

/-- `DEFAULT_CONFIG` string `gpt-5.2-codex`. -/
def dcs21_S : String := "gpt-5.2-codex"

/-- Character-list form of `dcs21_S`. -/
def dcs21 : Text := dcs21_S.toList

/-- `DEFAULT_CONFIG` string `52c`. -/
def dcs22_S : String := "52c"

/-- Character-list form of `dcs22_S`. -/
def dcs22 : Text := dcs22_S.toList

/-- `DEFAULT_CONFIG` string `gpt-5.2`. -/
def dcs23_S : String := "gpt-5.2"

/-- Character-list form of `dcs23_S`. -/
def dcs23 : Text := dcs23_S.toList

/-- `DEFAULT_CONFIG` string `52`. -/
def dcs24_S : String := "52"

/-- Character-list form of `dcs24_S`. -/
def dcs24 : Text := dcs24_S.toList

/-- `DEFAULT_CONFIG` string `gpt-4o`. -/
def dcs25_S : String := "gpt-4o"

/-- Character-list form of `dcs25_S`. -/
def dcs25 : Text := dcs25_S.toList

/-- `DEFAULT_CONFIG` string `4o`. -/
def dcs26_S : String := "4o"

/-- Character-list form of `dcs26_S`. -/
def dcs26 : Text := dcs26_S.toList

/-- `DEFAULT_CONFIG` string `gpt-4o-mini`. -/
def dcs27_S : String := "gpt-4o-mini"

/-- Character-list form of `dcs27_S`. -/
def dcs27 : Text := dcs27_S.toList

/-- `DEFAULT_CONFIG` string `4om`. -/
def dcs28_S : String := "4om"

/-- Character-list form of `dcs28_S`. -/
def dcs28 : Text := dcs28_S.toList

/-- `DEFAULT_CONFIG` string `o3`. -/
def dcs29_S : String := "o3"

/-- Character-list form of `dcs29_S`. -/
def dcs29 : Text := dcs29_S.toList

/-- `DEFAULT_CONFIG` string `o4-mini`. -/
def dcs30_S : String := "o4-mini"

/-- Character-list form of `dcs30_S`. -/
def dcs30 : Text := dcs30_S.toList

/-- `DEFAULT_CONFIG` string `o4m`. -/
def dcs31_S : String := "o4m"

/-- Character-list form of `dcs31_S`. -/
def dcs31 : Text := dcs31_S.toList

/-- `DEFAULT_CONFIG` string `gemini-3.1-pro-preview`. -/
def dcs32_S : String := "gemini-3.1-pro-preview"

/-- Character-list form of `dcs32_S`. -/
def dcs32 : Text := dcs32_S.toList

/-- `DEFAULT_CONFIG` string `g31p`. -/
def dcs33_S : String := "g31p"

/-- Character-list form of `dcs33_S`. -/
def dcs33 : Text := dcs33_S.toList

/-- `DEFAULT_CONFIG` string `gemini-3-flash-preview`. -/
def dcs34_S : String := "gemini-3-flash-preview"

/-- Character-list form of `dcs34_S`. -/
def dcs34 : Text := dcs34_S.toList

/-- `DEFAULT_CONFIG` string `g3f`. -/
def dcs35_S : String := "g3f"

/-- Character-list form of `dcs35_S`. -/
def dcs35 : Text := dcs35_S.toList

/-- `DEFAULT_CONFIG` string `gemini-2.5-pro`. -/
def dcs36_S : String := "gemini-2.5-pro"

/-- Character-list form of `dcs36_S`. -/
def dcs36 : Text := dcs36_S.toList

/-- `DEFAULT_CONFIG` string `g25p`. -/
def dcs37_S : String := "g25p"

/-- Character-list form of `dcs37_S`. -/
def dcs37 : Text := dcs37_S.toList

/-- `DEFAULT_CONFIG` string `gemini-2.5-flash`. -/
def dcs38_S : String := "gemini-2.5-flash"

/-- Character-list form of `dcs38_S`. -/
def dcs38 : Text := dcs38_S.toList

/-- `DEFAULT_CONFIG` string `g25f`. -/
def dcs39_S : String := "g25f"

/-- Character-list form of `dcs39_S`. -/
def dcs39 : Text := dcs39_S.toList

/-- `DEFAULT_CONFIG` string `gemini-2-flash`. -/
def dcs40_S : String := "gemini-2-flash"

/-- Character-list form of `dcs40_S`. -/
def dcs40 : Text := dcs40_S.toList

/-- `DEFAULT_CONFIG` string `g2f`. -/
def dcs41_S : String := "g2f"

/-- Character-list form of `dcs41_S`. -/
def dcs41 : Text := dcs41_S.toList

/-- `DEFAULT_CONFIG` string `gemini-2-flash-thinking`. -/
def dcs42_S : String := "gemini-2-flash-thinking"

/-- Character-list form of `dcs42_S`. -/
def dcs42 : Text := dcs42_S.toList

/-- `DEFAULT_CONFIG` string `g2ft`. -/
def dcs43_S : String := "g2ft"

/-- Character-list form of `dcs43_S`. -/
def dcs43 : Text := dcs43_S.toList

/-- `DEFAULT_CONFIG` string `qwen3.5-plus-02-15`. -/
def dcs44_S : String := "qwen3.5-plus-02-15"

/-- Character-list form of `dcs44_S`. -/
def dcs44 : Text := dcs44_S.toList

/-- `DEFAULT_CONFIG` string `q35p`. -/
def dcs45_S : String := "q35p"

/-- Character-list form of `dcs45_S`. -/
def dcs45 : Text := dcs45_S.toList

/-- `DEFAULT_CONFIG` string `qwen3.5-397b-a17b`. -/
def dcs46_S : String := "qwen3.5-397b-a17b"

/-- Character-list form of `dcs46_S`. -/
def dcs46 : Text := dcs46_S.toList

/-- `DEFAULT_CONFIG` string `q35`. -/
def dcs47_S : String := "q35"

/-- Character-list form of `dcs47_S`. -/
def dcs47 : Text := dcs47_S.toList

/-- `DEFAULT_CONFIG` string `qwen3-max-thinking`. -/
def dcs48_S : String := "qwen3-max-thinking"

/-- Character-list form of `dcs48_S`. -/
def dcs48 : Text := dcs48_S.toList

/-- `DEFAULT_CONFIG` string `q3mt`. -/
def dcs49_S : String := "q3mt"

/-- Character-list form of `dcs49_S`. -/
def dcs49 : Text := dcs49_S.toList

/-- `DEFAULT_CONFIG` string `qwen3-coder-next`. -/
def dcs50_S : String := "qwen3-coder-next"

/-- Character-list form of `dcs50_S`. -/
def dcs50 : Text := dcs50_S.toList

/-- `DEFAULT_CONFIG` string `q3cn`. -/
def dcs51_S : String := "q3cn"

/-- Character-list form of `dcs51_S`. -/
def dcs51 : Text := dcs51_S.toList

/-- `DEFAULT_CONFIG` string `qwen3-235b-a22b`. -/
def dcs52_S : String := "qwen3-235b-a22b"

/-- Character-list form of `dcs52_S`. -/
def dcs52 : Text := dcs52_S.toList

/-- `DEFAULT_CONFIG` string `q3`. -/
def dcs53_S : String := "q3"

/-- Character-list form of `dcs53_S`. -/
def dcs53 : Text := dcs53_S.toList

/-- `DEFAULT_CONFIG` string `qwen2.5-coder-32b-instruct`. -/
def dcs54_S : String := "qwen2.5-coder-32b-instruct"

/-- Character-list form of `dcs54_S`. -/
def dcs54 : Text := dcs54_S.toList

/-- `DEFAULT_CONFIG` string `q25c`. -/
def dcs55_S : String := "q25c"

/-- Character-list form of `dcs55_S`. -/
def dcs55 : Text := dcs55_S.toList

/-- `DEFAULT_CONFIG` string `glm-5`. -/
def dcs56_S : String := "glm-5"

/-- Character-list form of `dcs56_S`. -/
def dcs56 : Text := dcs56_S.toList

/-- `DEFAULT_CONFIG` string `g5`. -/
def dcs57_S : String := "g5"

/-- Character-list form of `dcs57_S`. -/
def dcs57 : Text := dcs57_S.toList

/-- `DEFAULT_CONFIG` string `glm-4.7`. -/
def dcs58_S : String := "glm-4.7"

/-- Character-list form of `dcs58_S`. -/
def dcs58 : Text := dcs58_S.toList

/-- `DEFAULT_CONFIG` string `g47`. -/
def dcs59_S : String := "g47"

/-- Character-list form of `dcs59_S`. -/
def dcs59 : Text := dcs59_S.toList

/-- `DEFAULT_CONFIG` string `glm-4.7-flash`. -/
def dcs60_S : String := "glm-4.7-flash"

/-- Character-list form of `dcs60_S`. -/
def dcs60 : Text := dcs60_S.toList

/-- `DEFAULT_CONFIG` string `g47f`. -/
def dcs61_S : String := "g47f"

/-- Character-list form of `dcs61_S`. -/
def dcs61 : Text := dcs61_S.toList

/-- `DEFAULT_CONFIG` string `glm-4.5`. -/
def dcs62_S : String := "glm-4.5"

/-- Character-list form of `dcs62_S`. -/
def dcs62 : Text := dcs62_S.toList

/-- `DEFAULT_CONFIG` string `g45`. -/
def dcs63_S : String := "g45"

/-- Character-list form of `dcs63_S`. -/
def dcs63 : Text := dcs63_S.toList

/-- `DEFAULT_CONFIG` string `kimi-k2.5`. -/
def dcs64_S : String := "kimi-k2.5"

/-- Character-list form of `dcs64_S`. -/
def dcs64 : Text := dcs64_S.toList

/-- `DEFAULT_CONFIG` string `k25`. -/
def dcs65_S : String := "k25"

/-- Character-list form of `dcs65_S`. -/
def dcs65 : Text := dcs65_S.toList

/-- `DEFAULT_CONFIG` string `minimax-m2.5`. -/
def dcs66_S : String := "minimax-m2.5"

/-- Character-list form of `dcs66_S`. -/
def dcs66 : Text := dcs66_S.toList

/-- `DEFAULT_CONFIG` string `m25`. -/
def dcs67_S : String := "m25"

/-- Character-list form of `dcs67_S`. -/
def dcs67 : Text := dcs67_S.toList

/-- `DEFAULT_CONFIG` string `minimax-m2.1`. -/
def dcs68_S : String := "minimax-m2.1"

/-- Character-list form of `dcs68_S`. -/
def dcs68 : Text := dcs68_S.toList

/-- `DEFAULT_CONFIG` string `m21`. -/
def dcs69_S : String := "m21"

/-- Character-list form of `dcs69_S`. -/
def dcs69 : Text := dcs69_S.toList

/-- `DEFAULT_CONFIG` string `minimax-m2-her`. -/
def dcs70_S : String := "minimax-m2-her"

/-- Character-list form of `dcs70_S`. -/
def dcs70 : Text := dcs70_S.toList

/-- `DEFAULT_CONFIG` string `m2h`. -/
def dcs71_S : String := "m2h"

/-- Character-list form of `dcs71_S`. -/
def dcs71 : Text := dcs71_S.toList

/-- `DEFAULT_CONFIG` string `grok-4`. -/
def dcs72_S : String := "grok-4"

/-- Character-list form of `dcs72_S`. -/
def dcs72 : Text := dcs72_S.toList

/-- `DEFAULT_CONFIG` string `g4`. -/
def dcs73_S : String := "g4"

/-- Character-list form of `dcs73_S`. -/
def dcs73 : Text := dcs73_S.toList

/-- `DEFAULT_CONFIG` string `grok-3`. -/
def dcs74_S : String := "grok-3"

/-- Character-list form of `dcs74_S`. -/
def dcs74 : Text := dcs74_S.toList

/-- `DEFAULT_CONFIG` string `g3`. -/
def dcs75_S : String := "g3"

/-- Character-list form of `dcs75_S`. -/
def dcs75 : Text := dcs75_S.toList

/-- `DEFAULT_CONFIG` string `grok-3-mini`. -/
def dcs76_S : String := "grok-3-mini"

/-- Character-list form of `dcs76_S`. -/
def dcs76 : Text := dcs76_S.toList

/-- `DEFAULT_CONFIG` string `g3m`. -/
def dcs77_S : String := "g3m"

/-- Character-list form of `dcs77_S`. -/
def dcs77 : Text := dcs77_S.toList

/-- `DEFAULT_CONFIG` string `grok-4-1-fast`. -/
def dcs78_S : String := "grok-4-1-fast"

/-- Character-list form of `dcs78_S`. -/
def dcs78 : Text := dcs78_S.toList

/-- `DEFAULT_CONFIG` string `g41f`. -/
def dcs79_S : String := "g41f"

/-- Character-list form of `dcs79_S`. -/
def dcs79 : Text := dcs79_S.toList

/-- `DEFAULT_CONFIG` string `grok-4-1-fast-reasoning`. -/
def dcs80_S : String := "grok-4-1-fast-reasoning"

/-- Character-list form of `dcs80_S`. -/
def dcs80 : Text := dcs80_S.toList

/-- `DEFAULT_CONFIG` string `g41fr`. -/
def dcs81_S : String := "g41fr"

/-- Character-list form of `dcs81_S`. -/
def dcs81 : Text := dcs81_S.toList

/-- `DEFAULT_CONFIG` string `deepseek-r1`. -/
def dcs82_S : String := "deepseek-r1"

/-- Character-list form of `dcs82_S`. -/
def dcs82 : Text := dcs82_S.toList

/-- `DEFAULT_CONFIG` string `dsr1`. -/
def dcs83_S : String := "dsr1"

/-- Character-list form of `dcs83_S`. -/
def dcs83 : Text := dcs83_S.toList

/-- `DEFAULT_CONFIG` string `deepseek-r1-0528`. -/
def dcs84_S : String := "deepseek-r1-0528"

/-- Character-list form of `dcs84_S`. -/
def dcs84 : Text := dcs84_S.toList

/-- `DEFAULT_CONFIG` string `deepseek-chat`. -/
def dcs85_S : String := "deepseek-chat"

/-- Character-list form of `dcs85_S`. -/
def dcs85 : Text := dcs85_S.toList

/-- `DEFAULT_CONFIG` string `dsc`. -/
def dcs86_S : String := "dsc"

/-- Character-list form of `dcs86_S`. -/
def dcs86 : Text := dcs86_S.toList

/-- `DEFAULT_CONFIG` string `deepseek-v3`. -/
def dcs87_S : String := "deepseek-v3"

/-- Character-list form of `dcs87_S`. -/
def dcs87 : Text := dcs87_S.toList

/-- `DEFAULT_CONFIG` string `dsv3`. -/
def dcs88_S : String := "dsv3"

/-- Character-list form of `dcs88_S`. -/
def dcs88 : Text := dcs88_S.toList

/-- `DEFAULT_CONFIG` string `deepseek-v3-0324`. -/
def dcs89_S : String := "deepseek-v3-0324"

/-- Character-list form of `dcs89_S`. -/
def dcs89 : Text := dcs89_S.toList

/-- `DEFAULT_CONFIG` string `llama-4-maverick`. -/
def dcs90_S : String := "llama-4-maverick"

/-- Character-list form of `dcs90_S`. -/
def dcs90 : Text := dcs90_S.toList

/-- `DEFAULT_CONFIG` string `l4m`. -/
def dcs91_S : String := "l4m"

/-- Character-list form of `dcs91_S`. -/
def dcs91 : Text := dcs91_S.toList

/-- `DEFAULT_CONFIG` string `llama-4-scout`. -/
def dcs92_S : String := "llama-4-scout"

/-- Character-list form of `dcs92_S`. -/
def dcs92 : Text := dcs92_S.toList

/-- `DEFAULT_CONFIG` string `l4s`. -/
def dcs93_S : String := "l4s"

/-- Character-list form of `dcs93_S`. -/
def dcs93 : Text := dcs93_S.toList

/-- `DEFAULT_CONFIG` string `llama-3.3-70b-instruct`. -/
def dcs94_S : String := "llama-3.3-70b-instruct"

/-- Character-list form of `dcs94_S`. -/
def dcs94 : Text := dcs94_S.toList

/-- `DEFAULT_CONFIG` string `l33`. -/
def dcs95_S : String := "l33"

/-- Character-list form of `dcs95_S`. -/
def dcs95 : Text := dcs95_S.toList

/-- `DEFAULT_CONFIG` string `llama-3.1-405b-instruct`. -/
def dcs96_S : String := "llama-3.1-405b-instruct"

/-- Character-list form of `dcs96_S`. -/
def dcs96 : Text := dcs96_S.toList

/-- `DEFAULT_CONFIG` string `l31`. -/
def dcs97_S : String := "l31"

/-- Character-list form of `dcs97_S`. -/
def dcs97 : Text := dcs97_S.toList

/-- `DEFAULT_CONFIG` string `mistral-large-2407`. -/
def dcs98_S : String := "mistral-large-2407"

/-- Character-list form of `dcs98_S`. -/
def dcs98 : Text := dcs98_S.toList

/-- `DEFAULT_CONFIG` string `ml24`. -/
def dcs99_S : String := "ml24"

/-- Character-list form of `dcs99_S`. -/
def dcs99 : Text := dcs99_S.toList

/-- `DEFAULT_CONFIG` string `mistral-small-3.1`. -/
def dcs100_S : String := "mistral-small-3.1"

/-- Character-list form of `dcs100_S`. -/
def dcs100 : Text := dcs100_S.toList

/-- `DEFAULT_CONFIG` string `ms31`. -/
def dcs101_S : String := "ms31"

/-- Character-list form of `dcs101_S`. -/
def dcs101 : Text := dcs101_S.toList

/-- `DEFAULT_CONFIG` string `codestral-2501`. -/
def dcs102_S : String := "codestral-2501"

/-- Character-list form of `dcs102_S`. -/
def dcs102 : Text := dcs102_S.toList

/-- `DEFAULT_CONFIG` string `mcs`. -/
def dcs103_S : String := "mcs"

/-- Character-list form of `dcs103_S`. -/
def dcs103 : Text := dcs103_S.toList

/-- `DEFAULT_CONFIG` string `seed-1.6`. -/
def dcs104_S : String := "seed-1.6"

/-- Character-list form of `dcs104_S`. -/
def dcs104 : Text := dcs104_S.toList

/-- `DEFAULT_CONFIG` string `sd16`. -/
def dcs105_S : String := "sd16"

/-- Character-list form of `dcs105_S`. -/
def dcs105 : Text := dcs105_S.toList

/-- `DEFAULT_CONFIG` string `seed-1.6-flash`. -/
def dcs106_S : String := "seed-1.6-flash"

/-- Character-list form of `dcs106_S`. -/
def dcs106 : Text := dcs106_S.toList

/-- `DEFAULT_CONFIG` string `sd16f`. -/
def dcs107_S : String := "sd16f"

/-- Character-list form of `dcs107_S`. -/
def dcs107 : Text := dcs107_S.toList

/-- `DEFAULT_CONFIG` string `trinity-large-preview`. -/
def dcs108_S : String := "trinity-large-preview"

/-- Character-list form of `dcs108_S`. -/
def dcs108 : Text := dcs108_S.toList

/-- `DEFAULT_CONFIG` string `tri`. -/
def dcs109_S : String := "tri"

/-- Character-list form of `dcs109_S`. -/
def dcs109 : Text := dcs109_S.toList

/-- `DEFAULT_CONFIG` string `step-3.5-flash`. -/
def dcs110_S : String := "step-3.5-flash"

/-- Character-list form of `dcs110_S`. -/
def dcs110 : Text := dcs110_S.toList

/-- `DEFAULT_CONFIG` string `sf35`. -/
def dcs111_S : String := "sf35"

/-- Character-list form of `dcs111_S`. -/
def dcs111 : Text := dcs111_S.toList

/-- `DEFAULT_CONFIG` string `opencode`. -/
def dcs112_S : String := "opencode"

/-- Character-list form of `dcs112_S`. -/
def dcs112 : Text := dcs112_S.toList

/-- `DEFAULT_CONFIG` string `oc`. -/
def dcs113_S : String := "oc"

/-- Character-list form of `dcs113_S`. -/
def dcs113 : Text := dcs113_S.toList

/-- `DEFAULT_CONFIG` string `provider_aliases`. -/
def dcs114_S : String := "provider_aliases"

/-- Character-list form of `dcs114_S`. -/
def dcs114 : Text := dcs114_S.toList

/-- `DEFAULT_CONFIG` string `anthropic`. -/
def dcs115_S : String := "anthropic"

/-- Character-list form of `dcs115_S`. -/
def dcs115 : Text := dcs115_S.toList

/-- `DEFAULT_CONFIG` string `an`. -/
def dcs116_S : String := "an"

/-- Character-list form of `dcs116_S`. -/
def dcs116 : Text := dcs116_S.toList

/-- `DEFAULT_CONFIG` string `openrouter`. -/
def dcs117_S : String := "openrouter"

/-- Character-list form of `dcs117_S`. -/
def dcs117 : Text := dcs117_S.toList

/-- `DEFAULT_CONFIG` string `or`. -/
def dcs118_S : String := "or"

/-- Character-list form of `dcs118_S`. -/
def dcs118 : Text := dcs118_S.toList

/-- `DEFAULT_CONFIG` string `openai-codex`. -/
def dcs119_S : String := "openai-codex"

/-- Character-list form of `dcs119_S`. -/
def dcs119 : Text := dcs119_S.toList

/-- `DEFAULT_CONFIG` string `openai`. -/
def dcs120_S : String := "openai"

/-- Character-list form of `dcs120_S`. -/
def dcs120 : Text := dcs120_S.toList

/-- `DEFAULT_CONFIG` string `oa`. -/
def dcs121_S : String := "oa"

/-- Character-list form of `dcs121_S`. -/
def dcs121 : Text := dcs121_S.toList

/-- `DEFAULT_CONFIG` string `vercel-ai-gateway`. -/
def dcs122_S : String := "vercel-ai-gateway"

/-- Character-list form of `dcs122_S`. -/
def dcs122 : Text := dcs122_S.toList

/-- `DEFAULT_CONFIG` string `ve`. -/
def dcs123_S : String := "ve"

/-- Character-list form of `dcs123_S`. -/
def dcs123 : Text := dcs123_S.toList

/-- `DEFAULT_CONFIG` string `op`. -/
def dcs124_S : String := "op"

/-- Character-list form of `dcs124_S`. -/
def dcs124 : Text := dcs124_S.toList

/-- `DEFAULT_CONFIG` string `xai`. -/
def dcs125_S : String := "xai"

/-- Character-list form of `dcs125_S`. -/
def dcs125 : Text := dcs125_S.toList

/-- `DEFAULT_CONFIG` string `xa`. -/
def dcs126_S : String := "xa"

/-- Character-list form of `dcs126_S`. -/
def dcs126 : Text := dcs126_S.toList

/-- `DEFAULT_CONFIG` string `lmstudio`. -/
def dcs127_S : String := "lmstudio"

/-- Character-list form of `dcs127_S`. -/
def dcs127 : Text := dcs127_S.toList

/-- `DEFAULT_CONFIG` string `lm`. -/
def dcs128_S : String := "lm"

/-- Character-list form of `dcs128_S`. -/
def dcs128 : Text := dcs128_S.toList

/-- `DEFAULT_CONFIG` string `source_aliases`. -/
def dcs129_S : String := "source_aliases"

/-- Character-list form of `dcs129_S`. -/
def dcs129 : Text := dcs129_S.toList

/-- `DEFAULT_CONFIG` string `minimax`. -/
def dcs130_S : String := "minimax"

/-- Character-list form of `dcs130_S`. -/
def dcs130 : Text := dcs130_S.toList

/-- `DEFAULT_CONFIG` string `mm`. -/
def dcs131_S : String := "mm"

/-- Character-list form of `dcs131_S`. -/
def dcs131 : Text := dcs131_S.toList

/-- `DEFAULT_CONFIG` string `mistral`. -/
def dcs132_S : String := "mistral"

/-- Character-list form of `dcs132_S`. -/
def dcs132 : Text := dcs132_S.toList

/-- `DEFAULT_CONFIG` string `ms`. -/
def dcs133_S : String := "ms"

/-- Character-list form of `dcs133_S`. -/
def dcs133 : Text := dcs133_S.toList

/-- `DEFAULT_CONFIG` string `deepseek`. -/
def dcs134_S : String := "deepseek"

/-- Character-list form of `dcs134_S`. -/
def dcs134 : Text := dcs134_S.toList

/-- `DEFAULT_CONFIG` string `ds`. -/
def dcs135_S : String := "ds"

/-- Character-list form of `dcs135_S`. -/
def dcs135 : Text := dcs135_S.toList

/-- `DEFAULT_CONFIG` string `google`. -/
def dcs136_S : String := "google"

/-- Character-list form of `dcs136_S`. -/
def dcs136 : Text := dcs136_S.toList

/-- `DEFAULT_CONFIG` string `gg`. -/
def dcs137_S : String := "gg"

/-- Character-list form of `dcs137_S`. -/
def dcs137 : Text := dcs137_S.toList

/-- `DEFAULT_CONFIG` string `qwen`. -/
def dcs138_S : String := "qwen"

/-- Character-list form of `dcs138_S`. -/
def dcs138 : Text := dcs138_S.toList

/-- `DEFAULT_CONFIG` string `qw`. -/
def dcs139_S : String := "qw"

/-- Character-list form of `dcs139_S`. -/
def dcs139 : Text := dcs139_S.toList

/-- `DEFAULT_CONFIG` string `meta-llama`. -/
def dcs140_S : String := "meta-llama"

/-- Character-list form of `dcs140_S`. -/
def dcs140 : Text := dcs140_S.toList

/-- `DEFAULT_CONFIG` string `ml`. -/
def dcs141_S : String := "ml"

/-- Character-list form of `dcs141_S`. -/
def dcs141 : Text := dcs141_S.toList

/-- `DEFAULT_CONFIG` string `bytedance-seed`. -/
def dcs142_S : String := "bytedance-seed"

/-- Character-list form of `dcs142_S`. -/
def dcs142 : Text := dcs142_S.toList

/-- `DEFAULT_CONFIG` string `bs`. -/
def dcs143_S : String := "bs"

/-- Character-list form of `dcs143_S`. -/
def dcs143 : Text := dcs143_S.toList

/-- `DEFAULT_CONFIG` string `arcee-ai`. -/
def dcs144_S : String := "arcee-ai"

/-- Character-list form of `dcs144_S`. -/
def dcs144 : Text := dcs144_S.toList

/-- `DEFAULT_CONFIG` string `ac`. -/
def dcs145_S : String := "ac"

/-- Character-list form of `dcs145_S`. -/
def dcs145 : Text := dcs145_S.toList

/-- `DEFAULT_CONFIG` string `stepfun`. -/
def dcs146_S : String := "stepfun"

/-- Character-list form of `dcs146_S`. -/
def dcs146 : Text := dcs146_S.toList

/-- `DEFAULT_CONFIG` string `sf`. -/
def dcs147_S : String := "sf"

/-- Character-list form of `dcs147_S`. -/
def dcs147 : Text := dcs147_S.toList

/-- `DEFAULT_CONFIG` string `upstage`. -/
def dcs148_S : String := "upstage"

/-- Character-list form of `dcs148_S`. -/
def dcs148 : Text := dcs148_S.toList

/-- `DEFAULT_CONFIG` string `up`. -/
def dcs149_S : String := "up"

/-- Character-list form of `dcs149_S`. -/
def dcs149 : Text := dcs149_S.toList

/-- `DEFAULT_CONFIG` string `writer`. -/
def dcs150_S : String := "writer"

/-- Character-list form of `dcs150_S`. -/
def dcs150 : Text := dcs150_S.toList

/-- `DEFAULT_CONFIG` string `wr`. -/
def dcs151_S : String := "wr"

/-- Character-list form of `dcs151_S`. -/
def dcs151 : Text := dcs151_S.toList

/-- `DEFAULT_CONFIG` string `moonshotai`. -/
def dcs152_S : String := "moonshotai"

/-- Character-list form of `dcs152_S`. -/
def dcs152 : Text := dcs152_S.toList

/-- `DEFAULT_CONFIG` string `mo`. -/
def dcs153_S : String := "mo"

/-- Character-list form of `dcs153_S`. -/
def dcs153 : Text := dcs153_S.toList

/-- `DEFAULT_CONFIG` string `z-ai`. -/
def dcs154_S : String := "z-ai"

/-- Character-list form of `dcs154_S`. -/
def dcs154 : Text := dcs154_S.toList

/-- `DEFAULT_CONFIG` string `za`. -/
def dcs155_S : String := "za"

/-- Character-list form of `dcs155_S`. -/
def dcs155 : Text := dcs155_S.toList

/-- `DEFAULT_CONFIG` string `zai`. -/
def dcs156_S : String := "zai"

/-- Character-list form of `dcs156_S`. -/
def dcs156 : Text := dcs156_S.toList

/-- `DEFAULT_CONFIG` string `fallback`. -/
def dcs157_S : String := "fallback"

/-- Character-list form of `dcs157_S`. -/
def dcs157 : Text := dcs157_S.toList

/-- `DEFAULT_CONFIG` string `provider_length`. -/
def dcs158_S : String := "provider_length"

/-- Character-list form of `dcs158_S`. -/
def dcs158 : Text := dcs158_S.toList

/-- `DEFAULT_CONFIG` string `source_length`. -/
def dcs159_S : String := "source_length"

/-- Character-list form of `dcs159_S`. -/
def dcs159 : Text := dcs159_S.toList

/-- `DEFAULT_CONFIG` string `model_length`. -/
def dcs160_S : String := "model_length"

/-- Character-list form of `dcs160_S`. -/
def dcs160 : Text := dcs160_S.toList

/-- `DEFAULT_CONFIG` string `auth_mode_overrides`. -/
def dcs161_S : String := "auth_mode_overrides"

/-- Character-list form of `dcs161_S`. -/
def dcs161 : Text := dcs161_S.toList

/-- `DEFAULT_CONFIG` string `token`. -/
def dcs162_S : String := "token"

/-- Character-list form of `dcs162_S`. -/
def dcs162 : Text := dcs162_S.toList

/-- `DEFAULT_CONFIG` string `O`. -/
def dcs163_S : String := "O"

/-- Character-list form of `dcs163_S`. -/
def dcs163 : Text := dcs163_S.toList

/-- `DEFAULT_CONFIG` string `api_key`. -/
def dcs164_S : String := "api_key"

/-- Character-list form of `dcs164_S`. -/
def dcs164 : Text := dcs164_S.toList

/-- `DEFAULT_CONFIG` string `T`. -/
def dcs165_S : String := "T"

/-- Character-list form of `dcs165_S`. -/
def dcs165 : Text := dcs165_S.toList

/-- patch.py lines 28-143: the field list of `DEFAULT_CONFIG`. -/
def DEFAULT_CONFIG_FIELDS : JObj :=
  objOfList
  [(dcs0, JVal.jstr dcs1),
  (dcs2, JVal.jobj (objOfList [(dcs3, JVal.jstr dcs4), (dcs5, JVal.jstr dcs4), (dcs6, JVal.jstr dcs7), (dcs8, JVal.jstr dcs9), (dcs10, JVal.jstr dcs11), (dcs12, JVal.jstr dcs13), (dcs14, JVal.jstr dcs15), (dcs16, JVal.jstr dcs15), (dcs17, JVal.jstr dcs18), (dcs19, JVal.jstr dcs20), (dcs21, JVal.jstr dcs22), (dcs23, JVal.jstr dcs24), (dcs25, JVal.jstr dcs26), (dcs27, JVal.jstr dcs28), (dcs29, JVal.jstr dcs29), (dcs30, JVal.jstr dcs31), (dcs32, JVal.jstr dcs33), (dcs34, JVal.jstr dcs35), (dcs36, JVal.jstr dcs37), (dcs38, JVal.jstr dcs39), (dcs40, JVal.jstr dcs41), (dcs42, JVal.jstr dcs43), (dcs44, JVal.jstr dcs45), (dcs46, JVal.jstr dcs47), (dcs48, JVal.jstr dcs49), (dcs50, JVal.jstr dcs51), (dcs52, JVal.jstr dcs53), (dcs54, JVal.jstr dcs55), (dcs56, JVal.jstr dcs57), (dcs58, JVal.jstr dcs59), (dcs60, JVal.jstr dcs61), (dcs62, JVal.jstr dcs63), (dcs64, JVal.jstr dcs65), (dcs66, JVal.jstr dcs67), (dcs68, JVal.jstr dcs69), (dcs70, JVal.jstr dcs71), (dcs72, JVal.jstr dcs73), (dcs74, JVal.jstr dcs75), (dcs76, JVal.jstr dcs77), (dcs78, JVal.jstr dcs79), (dcs80, JVal.jstr dcs81), (dcs82, JVal.jstr dcs83), (dcs84, JVal.jstr dcs83), (dcs85, JVal.jstr dcs86), (dcs87, JVal.jstr dcs88), (dcs89, JVal.jstr dcs88), (dcs90, JVal.jstr dcs91), (dcs92, JVal.jstr dcs93), (dcs94, JVal.jstr dcs95), (dcs96, JVal.jstr dcs97), (dcs98, JVal.jstr dcs99), (dcs100, JVal.jstr dcs101), (dcs102, JVal.jstr dcs103), (dcs104, JVal.jstr dcs105), (dcs106, JVal.jstr dcs107), (dcs108, JVal.jstr dcs109), (dcs110, JVal.jstr dcs111), (dcs112, JVal.jstr dcs113)])),
  (dcs114, JVal.jobj (objOfList [(dcs115, JVal.jstr dcs116), (dcs117, JVal.jstr dcs118), (dcs119, JVal.jstr dcs113), (dcs120, JVal.jstr dcs121), (dcs122, JVal.jstr dcs123), (dcs112, JVal.jstr dcs124), (dcs125, JVal.jstr dcs126), (dcs127, JVal.jstr dcs128)])),
  (dcs129, JVal.jobj (objOfList [(dcs120, JVal.jstr dcs121), (dcs115, JVal.jstr dcs116), (dcs130, JVal.jstr dcs131), (dcs132, JVal.jstr dcs133), (dcs134, JVal.jstr dcs135), (dcs136, JVal.jstr dcs137), (dcs138, JVal.jstr dcs139), (dcs140, JVal.jstr dcs141), (dcs142, JVal.jstr dcs143), (dcs144, JVal.jstr dcs145), (dcs146, JVal.jstr dcs147), (dcs148, JVal.jstr dcs149), (dcs150, JVal.jstr dcs151), (dcs152, JVal.jstr dcs153), (dcs154, JVal.jstr dcs155), (dcs156, JVal.jstr dcs155), (dcs125, JVal.jstr dcs126)])),
  (dcs157, JVal.jobj (objOfList [(dcs158, JVal.jint 2), (dcs159, JVal.jint 2), (dcs160, JVal.jint 12)])),
  (dcs161, JVal.jobj (objOfList [(dcs115, JVal.jobj (objOfList [(dcs162, JVal.jstr dcs163)])), (dcs122, JVal.jobj (objOfList [(dcs164, JVal.jstr dcs165)]))]))]


/-- Key `fallback`. -/
def kFallback_S : String := "fallback"

/-- Character-list form of `kFallback_S`. -/
def kFallback : Text := kFallback_S.toList

/-- Error text for a non-object configuration file. -/
def errNotObject_S : String := "config is not an object"

/-- Error text modelling the `AttributeError` Python raises in `load_config`
when the merged `fallback` value is not a dict (line 186 calls `.get` on it). -/
def errFallbackGet_S : String := "fallback value has no attribute get"

/-- Is a JSON value a positive integer in Python's sense
(`isinstance(val, int) and val > 0`)?  Python's `bool` is a subclass of `int`
with `True == 1`, so `true` passes this check. -/
def isPyPosInt : JVal → Bool
  | JVal.jint n => 0 < n
  | JVal.jbool b => b
  | _ => false

/-- patch.py lines 186-189: one iteration of the fallback-fixing loop
(`val = fallback.get(key, default)`; replace when not a positive int; note a
missing key with a good default is left missing). -/
def fixLen (fs : JObj) (k : Text) (d : Int) : JObj :=
  let v := (objGet fs k).getD (JVal.jint d)
  if isPyPosInt v then fs else objSet fs k (JVal.jint d)

/-- patch.py lines 192-194: reset a non-object map field to an empty map. -/
def fixMap (cfg : JObj) (k : Text) : JObj :=
  match objGet cfg k with
  | some (JVal.jobj _) => cfg
  | _ => objSet cfg k (JVal.jobj JObj.onil)

/-- patch.py lines 177-196: `load_config` on a parsed user configuration
object (the no-file case behaves like the empty object).  A non-dict JSON
document raises `ValueError`; a non-dict merged `fallback` makes line 187's
`fallback.get` raise `AttributeError`; both are modelled as `Except.error`. -/
def load_config (user : JVal) : Except String JVal :=
  match user with
  | JVal.jobj ufs =>
    let cfg := deepMergeO DEFAULT_CONFIG_FIELDS ufs
    match (objGet cfg kFallback).getD (JVal.jobj JObj.onil) with
    | JVal.jobj fs =>
      let fs := fixLen fs dcs158 2
      let fs := fixLen fs dcs159 2
      let fs := fixLen fs dcs160 12
      let cfg := objSet cfg kFallback (JVal.jobj fs)
      let cfg := fixMap cfg dcs2
      let cfg := fixMap cfg dcs114
      let cfg := fixMap cfg dcs129
      let cfg := fixMap cfg dcs161
      Except.ok (JVal.jobj cfg)
    | _ => Except.error errFallbackGet_S
  | _ => Except.error errNotObject_S

/-! ### Lemmas about line splitting and the declaration dedup -/

theorem splitLines_ne_nil (s : Text) : splitLines s ≠ [] := by
  cases s with
  | nil => simp [splitLines]
  | cons c cs =>
    simp only [splitLines]
    split
    · simp
    · cases h : splitLines cs <;> simp

theorem joinLines_splitLines (s : Text) : joinLines (splitLines s) = s := by
  induction s with
  | nil => simp [splitLines, joinLines]
  | cons c cs ih =>
    simp only [splitLines]
    by_cases hc : c = '\n'
    · subst hc
      simp only [if_pos rfl]
      cases h : splitLines cs with
      | nil => exact absurd h (splitLines_ne_nil cs)
      | cons l ls =>
        rw [h] at ih
        simp [joinLines, ih]
    · simp only [if_neg hc]
      cases h : splitLines cs with
      | nil => exact absurd h (splitLines_ne_nil cs)
      | cons l ls =>
        rw [h] at ih
        cases ls with
        | nil => simp_all [joinLines]
        | cons l2 ls2 => simp_all [joinLines]

theorem mem_splitLines_no_newline (s : Text) (l : Text) (hl : l ∈ splitLines s) :
    '\n' ∉ l := by
  induction s generalizing l with
  | nil =>
    simp only [splitLines, List.mem_singleton] at hl
    subst hl; simp
  | cons c cs ih =>
    simp only [splitLines] at hl
    by_cases hc : c = '\n'
    · subst hc
      rw [if_pos rfl] at hl
      rcases List.mem_cons.mp hl with h1 | h1
      · subst h1; simp
      · exact ih l h1
    · simp only [if_neg hc] at hl
      cases h : splitLines cs with
      | nil => exact absurd h (splitLines_ne_nil cs)
      | cons x xs =>
        rw [h] at hl
        simp only [List.mem_cons] at hl
        rcases hl with hl | hl
        · subst hl
          intro hmem
          simp only [List.mem_cons] at hmem
          rcases hmem with h1 | h2
          · exact hc h1.symm
          · exact ih x (by rw [h]; exact List.mem_cons_self x xs) h2
        · exact ih l (by rw [h]; exact List.mem_cons_of_mem x hl)

theorem splitLines_cons_no_newline (l : Text) (t : Text) (hl : '\n' ∉ l) :
    splitLines (l ++ '\n' :: t) = l :: splitLines t := by
  induction l with
  | nil => simp [splitLines]
  | cons c cs ih =>
    have hc : ¬(c = '\n') := fun h => hl (h ▸ List.mem_cons_self c cs)
    have hcs : '\n' ∉ cs := fun h => hl (List.mem_cons_of_mem c h)
    simp only [List.cons_append, splitLines, if_neg hc, List.append_eq]
    rw [ih hcs]

theorem splitLines_no_newline (l : Text) (hl : '\n' ∉ l) : splitLines l = [l] := by
  induction l with
  | nil => simp [splitLines]
  | cons c cs ih =>
    have hc : ¬(c = '\n') := fun h => hl (h ▸ List.mem_cons_self c cs)
    have hcs : '\n' ∉ cs := fun h => hl (List.mem_cons_of_mem c h)
    simp only [splitLines, if_neg hc, ih hcs]

theorem splitLines_joinLines (ls : List Text) (hne : ls ≠ [])
    (hnl : ∀ l ∈ ls, '\n' ∉ l) : splitLines (joinLines ls) = ls := by
  induction ls with
  | nil => exact absurd rfl hne
  | cons l rest ih =>
    cases rest with
    | nil =>
      simp only [joinLines]
      exact splitLines_no_newline l (hnl l (List.mem_cons_self l []))
    | cons l2 rest2 =>
      have h1 : '\n' ∉ l := hnl l (List.mem_cons_self l _)
      have h2 : ∀ x ∈ l2 :: rest2, '\n' ∉ x := fun x hx => hnl x (List.mem_cons_of_mem l hx)
      simp only [joinLines, splitLines_cons_no_newline l _ h1]
      rw [ih (by simp) h2]

theorem dedupScan_cons_head (a : Text) (bs : List Text) :
    ∃ t, dedupScan (a :: bs) = a :: t := by
  cases bs with
  | nil => exact ⟨[], rfl⟩
  | cons b rest =>
    simp only [dedupScan]
    split
    · exact ⟨dedupDrop rest, rfl⟩
    · exact ⟨dedupScan (b :: rest), rfl⟩

theorem dedupDrop_shape : ∀ (ls : List Text),
    dedupDrop ls = [] ∨ (∃ z, dedupDrop ls = [z]) ∨
      (∃ z rest', dedupDrop ls = z :: dedupScan rest' ∧ declLine z = false ∧
        rest'.length < ls.length)
  | [] => Or.inl rfl
  | [l] => Or.inr (Or.inl ⟨l, rfl⟩)
  | l :: x :: xs => by
    by_cases hd : declLine l = true
    · have : dedupDrop (l :: x :: xs) = dedupDrop (x :: xs) := by
        simp [dedupDrop, hd]
      rw [this]
      rcases dedupDrop_shape (x :: xs) with h | ⟨z, hz⟩ | ⟨z, rest', hz, hdz, hlen⟩
      · exact Or.inl h
      · exact Or.inr (Or.inl ⟨z, hz⟩)
      · exact Or.inr (Or.inr ⟨z, rest', hz, hdz, Nat.lt_trans hlen (by simp)⟩)
    · have : dedupDrop (l :: x :: xs) = l :: dedupScan (x :: xs) := by
        simp [dedupDrop, hd]
      exact Or.inr (Or.inr ⟨l, x :: xs, this, by simpa using hd, by simp⟩)

theorem dedupScan_idem_aux : ∀ (n : Nat), ∀ (ls : List Text), ls.length ≤ n →
    dedupScan (dedupScan ls) = dedupScan ls := by
  intro n
  induction n with
  | zero =>
    intro ls hl
    have : ls = [] := List.length_eq_zero.mp (Nat.le_zero.mp hl)
    subst this; rfl
  | succ n ih =>
    intro ls hl
    -- helper: scanning a scanned list headed by a non-declaration line
    have hstep : ∀ (z : Text) (r : List Text), declLine z = false → r.length ≤ n →
        dedupScan (z :: dedupScan r) = z :: dedupScan r := by
      intro z r hdz hr
      cases hT : dedupScan r with
      | nil => rfl
      | cons s t =>
        have : dedupScan (z :: s :: t) = z :: dedupScan (s :: t) := by
          simp [dedupScan, hdz]
        rw [this, ← hT, ih r hr, hT]
    cases ls with
    | nil => rfl
    | cons l bs =>
      cases bs with
      | nil => rfl
      | cons l' rest =>
        by_cases hcond : (declLine l && declLine l' && !rest.isEmpty) = true
        · have h1 : dedupScan (l :: l' :: rest) = l :: dedupDrop rest := by
            simp only [dedupScan, if_pos hcond]
          rw [h1]
          have hrest : rest.length ≤ n := by
            simp only [List.length_cons] at hl; omega
          rcases dedupDrop_shape rest with h | ⟨z, hz⟩ | ⟨z, rest', hz, hdz, hlen⟩
          · rw [h]; rfl
          · rw [hz]
            have hfalse : (declLine l && declLine z && !(List.isEmpty ([] : List Text))) = false := by
              simp
            simp [dedupScan, hfalse]
          · rw [hz]
            cases hT : dedupScan rest' with
            | nil => simp [dedupScan]
            | cons s t =>
              have h2 : dedupScan (l :: z :: s :: t) = l :: dedupScan (z :: s :: t) := by
                have hneg : ¬((declLine l && declLine z && !(s :: t).isEmpty) = true) := by
                  rw [hdz]; simp
                simp only [dedupScan, if_neg hneg]
              rw [← hT] at h2 ⊢
              rw [h2, hstep z rest' hdz (by omega)]
        · have h1 : dedupScan (l :: l' :: rest) = l :: dedupScan (l' :: rest) := by
            simp only [dedupScan, if_neg hcond]
          rw [h1]
          rcases dedupScan_cons_head l' rest with ⟨t, ht⟩
          have hrec : dedupScan (dedupScan (l' :: rest)) = dedupScan (l' :: rest) := by
            apply ih
            simp only [List.length_cons] at hl ⊢; omega
          by_cases hc2 : (declLine l && declLine l' && !t.isEmpty) = true
          · -- then `declLine l`, `declLine l'` and `t ≠ []`, so the original
            -- condition can only have failed through `rest = []`; but then
            -- `t = []`, a contradiction
            exfalso
            have h3 := hc2
            simp only [Bool.and_eq_true] at h3
            obtain ⟨⟨hdl, hdl'⟩, ht2⟩ := h3
            have hrest : rest.isEmpty = true := by
              by_contra hne
              apply hcond
              simp [hdl, hdl', Bool.not_eq_true] at hne ⊢
              simp [hne]
            have : rest = [] := by
              cases rest with
              | nil => rfl
              | cons a b => simp [List.isEmpty] at hrest
            subst this
            have : t = [] := by
              have := ht
              simp [dedupScan] at this
              exact this.symm ▸ rfl
            subst this
            simp at hc2
          · rw [ht]
            have h2 : dedupScan (l :: l' :: t) = l :: dedupScan (l' :: t) := by
              simp only [dedupScan, if_neg hc2]
            rw [h2, ← ht, hrec, ht]

theorem dedup_mem_aux : ∀ (n : Nat), ∀ (ls : List Text),
    ls.length ≤ n →
    (∀ x, x ∈ dedupScan ls → x ∈ ls) ∧ (∀ x, x ∈ dedupDrop ls → x ∈ ls) := by
  intro n
  induction n with
  | zero =>
    intro ls hl
    have : ls = [] := List.length_eq_zero.mp (Nat.le_zero.mp hl)
    subst this
    exact ⟨fun x hx => by simp [dedupScan] at hx, fun x hx => by simp [dedupDrop] at hx⟩
  | succ n ih =>
    intro ls hl
    constructor
    · intro x hx
      cases ls with
      | nil => simpa [dedupScan] using hx
      | cons l bs =>
        cases bs with
        | nil => simpa [dedupScan] using hx
        | cons l' rest =>
          by_cases hcond : (declLine l && declLine l' && !rest.isEmpty) = true
          · rw [show dedupScan (l :: l' :: rest) = l :: dedupDrop rest by
              simp only [dedupScan, if_pos hcond]] at hx
            rcases List.mem_cons.mp hx with h | h
            · simp [h]
            · have := (ih rest (by simp only [List.length_cons] at hl; omega)).2 x h
              simp [this]
          · rw [show dedupScan (l :: l' :: rest) = l :: dedupScan (l' :: rest) by
              simp only [dedupScan, if_neg hcond]] at hx
            rcases List.mem_cons.mp hx with h | h
            · simp [h]
            · have := (ih (l' :: rest) (by simp only [List.length_cons] at hl ⊢; omega)).1 x h
              simp [List.mem_cons.mp this]
    · intro x hx
      cases ls with
      | nil => simpa [dedupDrop] using hx
      | cons l bs =>
        cases bs with
        | nil => simpa [dedupDrop] using hx
        | cons b rest2 =>
          by_cases hd : declLine l = true
          · rw [show dedupDrop (l :: b :: rest2) = dedupDrop (b :: rest2) by
              simp [dedupDrop, hd]] at hx
            have := (ih (b :: rest2) (by simp only [List.length_cons] at hl ⊢; omega)).2 x hx
            simp [List.mem_cons.mp this]
          · rw [show dedupDrop (l :: b :: rest2) = l :: dedupScan (b :: rest2) by
              simp [dedupDrop, hd]] at hx
            rcases List.mem_cons.mp hx with h | h
            · simp [h]
            · have := (ih (b :: rest2) (by simp only [List.length_cons] at hl ⊢; omega)).1 x h
              simp [List.mem_cons.mp this]

theorem mem_dedupLines (ls : List Text) (x : Text) (hx : x ∈ dedupLines ls) :
    x ∈ ls := by
  cases ls with
  | nil => simpa [dedupLines] using hx
  | cons l rest =>
    simp only [dedupLines, List.mem_cons] at hx
    rcases hx with h | h
    · simp [h]
    · have := (dedup_mem_aux rest.length rest (Nat.le_refl _)).1 x h
      simp [this]

theorem dedupLines_idem (ls : List Text) :
    dedupLines (dedupLines ls) = dedupLines ls := by
  cases ls with
  | nil => rfl
  | cons l rest =>
    simp only [dedupLines]
    rw [dedupScan_idem_aux rest.length rest (Nat.le_refl _)]

theorem dedupLines_ne_nil (ls : List Text) (h : ls ≠ []) : dedupLines ls ≠ [] := by
  cases ls with
  | nil => exact absurd rfl h
  | cons l rest => simp [dedupLines]

/-- `normalize_raw_provider_declaration` is idempotent: its output collapses to
itself with no further change. -/
theorem normalizeDecl_idem (s : Text) :
    normalize_raw_provider_declaration (normText s) = (normText s, false) := by
  have hnn : ∀ l ∈ dedupLines (splitLines s), '\n' ∉ l := fun l hl =>
    mem_splitLines_no_newline s l (mem_dedupLines (splitLines s) l hl)
  have hne : dedupLines (splitLines s) ≠ [] :=
    dedupLines_ne_nil (splitLines s) (splitLines_ne_nil s)
  have h1 : splitLines (joinLines (dedupLines (splitLines s))) = dedupLines (splitLines s) :=
    splitLines_joinLines _ hne hnn
  simp only [normText, normalize_raw_provider_declaration, h1, dedupLines_idem]
  simp

/-- The normalised text is a fixed point of `normText`. -/
theorem normText_fixed (s : Text) : normText (normText s) = normText s := by
  show (normalize_raw_provider_declaration (normText s)).1 = normText s
  rw [normalizeDecl_idem s]

/-! ### Lemmas about the patch functions -/

theorem marker_in_postfix_block : containsSub POSTFIX_MARKER postfix_block = true := by
  decide

theorem marker_in_postfix_block_re :
    containsSub POSTFIX_MARKER postfix_block_re = true := by decide

theorem marker_in_idshort_repl :
    containsSub IDSHORT_MARKER (reReplEsc idshort_repl) = true := by decide

theorem subnFirst_none_repl (m : Matcher) (r1 r2 : Text) : ∀ (s : Text),
    subnFirst m r1 s = none → subnFirst m r2 s = none := by
  intro s
  induction s with
  | nil =>
    intro h
    simp only [subnFirst] at h ⊢
    cases hm : m [] with
    | some n => rw [hm] at h; exact absurd h (by simp)
    | none => rfl
  | cons c cs ih =>
    intro h
    simp only [subnFirst] at h ⊢
    cases hm : m (c :: cs) with
    | some n => rw [hm] at h; exact absurd h (by simp)
    | none =>
      rw [hm] at h
      cases hrec : subnFirst m r1 cs with
      | some t => rw [hrec] at h; exact absurd h (by simp)
      | none => rw [ih hrec]; rfl

/-- `patch_postfix_support` returns `already` exactly when the marker occurs. -/
theorem postfix_already_iff (js : Text) :
    (patch_postfix_support js).2 = stAlready ↔ containsSub POSTFIX_MARKER js = true := by
  constructor
  · intro h
    by_contra hm
    simp only [patch_postfix_support, if_neg hm] at h
    by_cases hl : containsSub literal_line js = true
    · rw [if_pos hl] at h
      exact absurd (show stPatched = stAlready from h) (by decide)
    · rw [if_neg hl] at h
      cases hs : subnFirst postfixAnchorM postfix_block_re js with
      | some t =>
        rw [hs] at h
        exact absurd (show stPatched = stAlready from h) (by decide)
      | none =>
        rw [hs] at h
        exact absurd (show stNoMatch = stAlready from h) (by decide)
  · intro hm
    simp [patch_postfix_support, hm]

/-- When `patch_postfix_support` patches, the marker occurs in its output. -/
theorem postfix_patched_marker (js : Text)
    (h : (patch_postfix_support js).2 = stPatched) :
    containsSub POSTFIX_MARKER (patch_postfix_support js).1 = true := by
  by_cases hm : containsSub POSTFIX_MARKER js = true
  · simp only [patch_postfix_support, if_pos hm] at h
    exact absurd (show stAlready = stPatched from h) (by decide)
  · simp only [patch_postfix_support, if_neg hm] at h ⊢
    by_cases hl : containsSub literal_line js = true
    · rw [if_pos hl]
      rcases replaceFirst_spec literal_line postfix_block js hl with ⟨u, v, _, hrep⟩
      show containsSub POSTFIX_MARKER (replaceFirst literal_line postfix_block js) = true
      rw [hrep]
      exact containsSub_of_mid _ _ _ _ marker_in_postfix_block
    · rw [if_neg hl] at h ⊢
      cases hs : subnFirst postfixAnchorM postfix_block_re js with
      | some t =>
        show containsSub POSTFIX_MARKER t = true
        exact containsSub_subnFirst _ _ js t _ hs marker_in_postfix_block_re
      | none =>
        rw [hs] at h
        exact absurd (show stNoMatch = stPatched from h) (by decide)

/-- `patch_identity_short` returns `already` exactly when the marker occurs. -/
theorem idshort_already_iff (js : Text) :
    (patch_identity_short js).2 = stAlready ↔ containsSub IDSHORT_MARKER js = true := by
  constructor
  · intro h
    by_contra hm
    simp only [patch_identity_short, if_neg hm] at h
    cases hs : subnFirst idshortM (reReplEsc idshort_repl) js with
    | some t =>
      rw [hs] at h
      exact absurd (show stPatched = stAlready from h) (by decide)
    | none =>
      rw [hs] at h
      exact absurd (show stNoMatch = stAlready from h) (by decide)
  · intro hm
    simp [patch_identity_short, hm]

/-- When `patch_identity_short` patches, the marker occurs in its output. -/
theorem idshort_patched_marker (js : Text)
    (h : (patch_identity_short js).2 = stPatched) :
    containsSub IDSHORT_MARKER (patch_identity_short js).1 = true := by
  by_cases hm : containsSub IDSHORT_MARKER js = true
  · simp only [patch_identity_short, if_pos hm] at h
    exact absurd (show stAlready = stPatched from h) (by decide)
  · simp only [patch_identity_short, if_neg hm] at h ⊢
    cases hs : subnFirst idshortM (reReplEsc idshort_repl) js with
    | some t =>
      show containsSub IDSHORT_MARKER t = true
      exact containsSub_subnFirst _ _ js t _ hs marker_in_idshort_repl
    | none =>
      rw [hs] at h
      exact absurd (show stNoMatch = stPatched from h) (by decide)

theorem postfix_already_of_marker (js : Text)
    (hm : containsSub POSTFIX_MARKER js = true) :
    patch_postfix_support js = (js, stAlready) := by
  simp [patch_postfix_support, hm]

theorem idshort_already_of_marker (js : Text)
    (hm : containsSub IDSHORT_MARKER js = true) :
    patch_identity_short js = (js, stAlready) := by
  simp [patch_identity_short, hm]

/-- A text whose lines have no duplicate runs is a fixed point of `normText`. -/
theorem normText_of_nodups (js : Text)
    (h : (normalize_raw_provider_declaration js).2 = false) :
    normText js = js := by
  simp only [normalize_raw_provider_declaration] at h
  have heq : dedupLines (splitLines js) = splitLines js := by
    simp only [Bool.not_eq_false'] at h
    exact beq_iff_eq.mp h
  simp only [normText, normalize_raw_provider_declaration, heq, joinLines_splitLines]

/-- A fixed point of `normText` normalises to itself with no change flag. -/
theorem norm_of_fixed (s : Text) (h : normText s = s) :
    normalize_raw_provider_declaration s = (s, false) := by
  have hsplit : dedupLines (splitLines s) = splitLines s := by
    have h1 : splitLines (joinLines (dedupLines (splitLines s))) =
        dedupLines (splitLines s) :=
      splitLines_joinLines _ (dedupLines_ne_nil _ (splitLines_ne_nil s))
        (fun l hl => mem_splitLines_no_newline s l (mem_dedupLines _ l hl))
    have h2 : joinLines (dedupLines (splitLines s)) = s := h
    rw [h2] at h1
    exact h1.symm
  simp only [normalize_raw_provider_declaration, hsplit, joinLines_splitLines]
  simp

/-- The `already`/dedup-only branch of `patch_modelstamp_v3` (patch.py lines
758-760): marker present, `force` false and safe signature present. -/
theorem modelstamp_already_branch (js : Text) (cfg : AliasConfig)
    (hm : containsSub MODELSTAMP_V3_MARKER (normText js) = true)
    (hs : has_safe_provider_auth_logic (normText js) = true) :
    patch_modelstamp_v3 js cfg false =
      (normText js,
       if (normalize_raw_provider_declaration js).2 then stPatched else stAlready) := by
  simp only [patch_modelstamp_v3, normText] at hm hs ⊢
  simp [hm, hs]

/-- The output of `modelstampRpp` is always normalised. -/
theorem modelstampRpp_output_normalized (js newer : Text) (cfg : AliasConfig) :
    normText (modelstampRpp js newer cfg).1 = (modelstampRpp js newer cfg).1 := by
  unfold modelstampRpp
  by_cases h : containsSub rpp_literal newer = true
  · rw [if_pos h]
    exact normText_fixed _
  · rw [if_neg h]
    cases hs : subnFirst rppM (reReplEsc (rpp_repl cfg)) newer with
    | some newest => exact normText_fixed _
    | none => exact normText_fixed _

/-- The output of `patch_modelstamp_v3` is always normalised. -/
theorem modelstamp_output_normalized (js : Text) (cfg : AliasConfig) (force : Bool) :
    normText (patch_modelstamp_v3 js cfg force).1 = (patch_modelstamp_v3 js cfg force).1 := by
  unfold patch_modelstamp_v3
  by_cases hcond : (containsSub MODELSTAMP_V3_MARKER (normalize_raw_provider_declaration js).1
      && !force && has_safe_provider_auth_logic (normalize_raw_provider_declaration js).1) = true
  · simp only [if_pos hcond]
    exact normText_fixed js
  · simp only [if_neg hcond]
    cases hsub : subnFirst onModelM (reReplEsc (on_model_new cfg))
        (normalize_raw_provider_declaration js).1 with
    | some newer => exact modelstampRpp_output_normalized _ _ _
    | none =>
      by_cases hm : containsSub MODELSTAMP_V3_MARKER (normalize_raw_provider_declaration js).1 = true
      · rw [if_pos hm]
        exact modelstampRpp_output_normalized _ _ _
      · rw [if_neg hm]
        exact normText_fixed js

/-- Re-running `patch_modelstamp_v3` on an output containing both the marker
and the safe signature yields `already` with byte-identical text. -/
theorem modelstamp_second_already (js : Text) (cfg : AliasConfig)
    (hm : containsSub MODELSTAMP_V3_MARKER ((patch_modelstamp_v3 js cfg false).1) = true)
    (hs : has_safe_provider_auth_logic ((patch_modelstamp_v3 js cfg false).1) = true) :
    patch_modelstamp_v3 ((patch_modelstamp_v3 js cfg false).1) cfg false =
      ((patch_modelstamp_v3 js cfg false).1, stAlready) := by
  have hfix : normText ((patch_modelstamp_v3 js cfg false).1) =
      (patch_modelstamp_v3 js cfg false).1 :=
    modelstamp_output_normalized js cfg false
  have hnorm := norm_of_fixed _ hfix
  have := modelstamp_already_branch ((patch_modelstamp_v3 js cfg false).1) cfg
    (by rw [hfix]; exact hm) (by rw [hfix]; exact hs)
  rw [hnorm] at this
  simpa [hfix] using this

/-- The `no-match` branch of `patch_modelstamp_v3`. -/
theorem modelstamp_no_match (js : Text) (cfg : AliasConfig) (force : Bool)
    (hm : containsSub MODELSTAMP_V3_MARKER (normText js) = false)
    (h7 : subnFirst onModelM [] (normText js) = none) :
    patch_modelstamp_v3 js cfg force = (normText js, stNoMatch) := by
  simp only [patch_modelstamp_v3, normText] at hm h7 ⊢
  have hcond : (containsSub MODELSTAMP_V3_MARKER (normalize_raw_provider_declaration js).1
      && !force && has_safe_provider_auth_logic (normalize_raw_provider_declaration js).1) = false := by
    rw [hm]; simp
  rw [hcond]
  simp only [Bool.false_eq_true, if_false]
  rw [subnFirst_none_repl onModelM [] (reReplEsc (on_model_new cfg)) _ h7]
  rw [hm]
  simp

/-! ### Sample inputs used by witnesses and counterexamples -/

/-- An empty alias configuration with the default fallback lengths. -/
def cfgEmpty : AliasConfig :=
  { model_aliases := [], provider_aliases := [], source_aliases := [],
    auth_mode_overrides := [], provider_length := 2, source_length := 2,
    model_length := 12 }

/-- A text matching the `patch_identity_short` anchor. -/
def idshortSample_S : String := "const prefixContext = \x7b identityName: resolveIdentityName(cfg, agentId) \x7d;"

/-- Character-list form of `idshortSample_S`. -/
def idshortSample : Text := idshortSample_S.toList

/-- A text containing nothing of interest to any patch. -/
def helloSample_S : String := "hello world"

/-- Character-list form of `helloSample_S`. -/
def helloSample : Text := helloSample_S.toList

/-- A text containing only the `onModelSelected` anchor (and not the
`responsePrefixContextProvider` one). -/
def anchorOnly_S : String := "const onModelSelected = (ctx) => \x7b\n\x7d;"

/-- Character-list form of `anchorOnly_S`. -/
def anchorOnly : Text := anchorOnly_S.toList

/-- A text containing both `patch_modelstamp_v3` anchors. -/
def bothAnchors_S : String := "const onModelSelected = (ctx) => \x7b\n\x7d;\nresponsePrefixContextProvider: () => prefixContext,"

/-- Character-list form of `bothAnchors_S`. -/
def bothAnchors : Text := bothAnchors_S.toList

/-- A text with duplicate adjacent declarations but no marker and no anchor. -/
def dupsNoMarker_S : String := "a\nlet __rawProvider, __rawModel;\nlet __rawProvider, __rawModel;\nx"

/-- Character-list form of `dupsNoMarker_S`. -/
def dupsNoMarker : Text := dupsNoMarker_S.toList

/-- A text with the V3 marker, the safe provider-auth signature and duplicate
adjacent declarations. -/
def safeMarkerDups_S : String := "/* __MODELSTAMP_V3__ */\ntypeof resolveAgentDir === \"function\" && typeof ensureAuthProfileStore === \"function\"\nconst __profiles = cfg?.auth?.profiles;\nconst __authOrder = cfg?.auth?.order?.[__rawProvider];\nlet __rawProvider, __rawModel;\nlet __rawProvider, __rawModel;\nx"

/-- Character-list form of `safeMarkerDups_S`. -/
def safeMarkerDups : Text := safeMarkerDups_S.toList

/-! ### Claim C10 -/

/-- C10: `patch_postfix_support` returns status `already` precisely when
`POSTFIX_MARKER` occurs in the input, and whenever it returns `patched` the
marker occurs in the returned text; the same holds for `patch_identity_short`
with `IDSHORT_MARKER` — so a `patched` result always establishes the marker
that signals idempotence on subsequent runs. -/
theorem c10_marker_invariants :
    (∀ js : Text,
      ((patch_postfix_support js).2 = stAlready ↔ containsSub POSTFIX_MARKER js = true)) ∧
    (∀ js : Text, (patch_postfix_support js).2 = stPatched →
      containsSub POSTFIX_MARKER (patch_postfix_support js).1 = true) ∧
    (∀ js : Text,
      ((patch_identity_short js).2 = stAlready ↔ containsSub IDSHORT_MARKER js = true)) ∧
    (∀ js : Text, (patch_identity_short js).2 = stPatched →
      containsSub IDSHORT_MARKER (patch_identity_short js).1 = true) :=
  ⟨postfix_already_iff, postfix_patched_marker, idshort_already_iff,
   idshort_patched_marker⟩

/-- C10 witness: the invariants applied at concrete patched/already inputs. -/
theorem c10_witness :
    containsSub POSTFIX_MARKER (patch_postfix_support literal_line).1 = true ∧
    containsSub IDSHORT_MARKER (patch_identity_short idshortSample).1 = true ∧
    (patch_postfix_support postfix_block).2 = stAlready :=
  ⟨c10_marker_invariants.2.1 literal_line (by rfl),
   c10_marker_invariants.2.2.2 idshortSample (by rfl),
   (c10_marker_invariants.1 postfix_block).mpr (by rfl)⟩

/-! ### Claim C2 -/

/-- C2: for every text that contains none of the three patch markers, none of
the three anchor patterns (neither the literal line of the stamp-placement
patch nor a match of any of the three tolerant patterns) and no duplicate
adjacent `let __rawProvider, __rawModel;` declarations, each of the three
patch functions returns status `no-match` with the input text byte-identical. -/
theorem c2_no_match_safety (js : Text) (cfg : AliasConfig)
    (h1 : containsSub POSTFIX_MARKER js = false)
    (h2 : containsSub IDSHORT_MARKER js = false)
    (h3 : containsSub MODELSTAMP_V3_MARKER js = false)
    (h4 : containsSub literal_line js = false)
    (h5 : subnFirst postfixAnchorM [] js = none)
    (h6 : subnFirst idshortM [] js = none)
    (h7 : subnFirst onModelM [] js = none)
    (h8 : (normalize_raw_provider_declaration js).2 = false) :
    patch_postfix_support js = (js, stNoMatch) ∧
    patch_identity_short js = (js, stNoMatch) ∧
    patch_modelstamp_v3 js cfg false = (js, stNoMatch) := by
  have hfx : normText js = js := normText_of_nodups js h8
  refine ⟨?_, ?_, ?_⟩
  · have h5' := subnFirst_none_repl postfixAnchorM [] postfix_block_re js h5
    simp [patch_postfix_support, h1, h4, h5']
  · have h6' := subnFirst_none_repl idshortM [] (reReplEsc idshort_repl) js h6
    simp [patch_identity_short, h2, h6']
  · have := modelstamp_no_match js cfg false (by rw [hfx]; exact h3)
      (by rw [hfx]; exact h7)
    rw [hfx] at this
    exact this

/-- C2 witness: the three patches on a concrete anchor-free text. -/
theorem c2_witness :
    patch_postfix_support helloSample = (helloSample, stNoMatch) ∧
    patch_identity_short helloSample = (helloSample, stNoMatch) ∧
    patch_modelstamp_v3 helloSample cfgEmpty false = (helloSample, stNoMatch) :=
  c2_no_match_safety helloSample cfgEmpty (by rfl) (by rfl) (by rfl) (by rfl)
    (by rfl) (by rfl) (by rfl) (by rfl)

/-! ### Claim C1 -/

/-- C1 counterexample: on a text containing the `onModelSelected` anchor but
not the `responsePrefixContextProvider` one, `patch_modelstamp_v3`
(force false) returns `patched`, and a second application returns `patched`
again with a different text instead of `already` with byte-identical text —
so the claimed idempotence fails for `patch_modelstamp_v3` as stated. -/
theorem c1_counterexample :
    (patch_modelstamp_v3 anchorOnly cfgEmpty false).2 = stPatched ∧
    (patch_modelstamp_v3 (patch_modelstamp_v3 anchorOnly cfgEmpty false).1
      cfgEmpty false).2 = stPatched ∧
    (patch_modelstamp_v3 (patch_modelstamp_v3 anchorOnly cfgEmpty false).1
        cfgEmpty false).1 ≠
      (patch_modelstamp_v3 anchorOnly cfgEmpty false).1 ∧
    stPatched ≠ stAlready :=
  ⟨by rfl, by rfl, by decide, by decide⟩

/-- C1 amended: for `patch_postfix_support` and `patch_identity_short`, a
first application returning `patched` makes a second application return
`already` with byte-identical text, for every input; for
`patch_modelstamp_v3` (force false) the same holds provided the first
application's output contains the V3 marker and the safe provider-auth
signature (as it does whenever both call sites were replaced). -/
theorem c1_idempotence_amended :
    (∀ js : Text, (patch_postfix_support js).2 = stPatched →
      patch_postfix_support (patch_postfix_support js).1 =
        ((patch_postfix_support js).1, stAlready)) ∧
    (∀ js : Text, (patch_identity_short js).2 = stPatched →
      patch_identity_short (patch_identity_short js).1 =
        ((patch_identity_short js).1, stAlready)) ∧
    (∀ (js : Text) (cfg : AliasConfig),
      (patch_modelstamp_v3 js cfg false).2 = stPatched →
      containsSub MODELSTAMP_V3_MARKER (patch_modelstamp_v3 js cfg false).1 = true →
      has_safe_provider_auth_logic (patch_modelstamp_v3 js cfg false).1 = true →
      patch_modelstamp_v3 (patch_modelstamp_v3 js cfg false).1 cfg false =
        ((patch_modelstamp_v3 js cfg false).1, stAlready)) := by
  refine ⟨?_, ?_, ?_⟩
  · intro js h
    exact postfix_already_of_marker _ (postfix_patched_marker js h)
  · intro js h
    exact idshort_already_of_marker _ (idshort_patched_marker js h)
  · intro js cfg _ hm hs
    exact modelstamp_second_already js cfg hm hs

/-- C1 witness: the amended idempotence applied at concrete inputs whose
first application returns `patched` (for the model-stamp patch: marker and
safe signature present, duplicate declarations collapse). -/
theorem c1_witness :
    patch_postfix_support (patch_postfix_support literal_line).1 =
      ((patch_postfix_support literal_line).1, stAlready) ∧
    patch_identity_short (patch_identity_short idshortSample).1 =
      ((patch_identity_short idshortSample).1, stAlready) ∧
    patch_modelstamp_v3 (patch_modelstamp_v3 safeMarkerDups cfgEmpty false).1
        cfgEmpty false =
      ((patch_modelstamp_v3 safeMarkerDups cfgEmpty false).1, stAlready) :=
  ⟨c1_idempotence_amended.1 literal_line (by rfl),
   c1_idempotence_amended.2.1 idshortSample (by rfl),
   c1_idempotence_amended.2.2 safeMarkerDups cfgEmpty (by rfl) (by rfl) (by rfl)⟩

/-! ### Claim C9 -/

/-- C9 counterexample: on a text with duplicate adjacent declarations but no
marker and no `onModelSelected` anchor, `patch_modelstamp_v3` returns the
deduplicated (changed) text with status `no-match`, not `patched` — so "when
the dedup altered the text the returned status reports a change" fails as
stated. -/
theorem c9_counterexample :
    (normalize_raw_provider_declaration dupsNoMarker).2 = true ∧
    patch_modelstamp_v3 dupsNoMarker cfgEmpty false =
      (normText dupsNoMarker, stNoMatch) ∧
    normText dupsNoMarker ≠ dupsNoMarker ∧
    stNoMatch ≠ stPatched :=
  ⟨by rfl, by rfl, by decide, by decide⟩

/-- C9 amended: `patch_modelstamp_v3` always runs the duplicate-declaration
collapse first — its output is always in normalised form, for every marker
state and force flag — and when the marker and the safe provider-auth
signature are present (force false), the dedup's own effect is reported as
`patched` even though no other replacement was made; but when the marker is
absent and the `onModelSelected` anchor does not match, the deduplicated text
is returned with status `no-match`. -/
theorem c9_dedup_amended :
    (∀ (js : Text) (cfg : AliasConfig) (force : Bool),
      normText (patch_modelstamp_v3 js cfg force).1 =
        (patch_modelstamp_v3 js cfg force).1) ∧
    (∀ (js : Text) (cfg : AliasConfig),
      containsSub MODELSTAMP_V3_MARKER (normText js) = true →
      has_safe_provider_auth_logic (normText js) = true →
      patch_modelstamp_v3 js cfg false =
        (normText js,
         if (normalize_raw_provider_declaration js).2 then stPatched else stAlready)) ∧
    (∀ (js : Text) (cfg : AliasConfig) (force : Bool),
      containsSub MODELSTAMP_V3_MARKER (normText js) = false →
      subnFirst onModelM [] (normText js) = none →
      patch_modelstamp_v3 js cfg force = (normText js, stNoMatch)) :=
  ⟨modelstamp_output_normalized, modelstamp_already_branch, modelstamp_no_match⟩

/-- C9 witness: the amended statements applied at a concrete input whose
dedup collapses a duplicate declaration while marker and safe signature are
present. -/
theorem c9_witness :
    patch_modelstamp_v3 safeMarkerDups cfgEmpty false =
      (normText safeMarkerDups, stPatched) ∧
    patch_modelstamp_v3 dupsNoMarker cfgEmpty true =
      (normText dupsNoMarker, stNoMatch) := by
  constructor
  · have h := c9_dedup_amended.2.1 safeMarkerDups cfgEmpty (by rfl) (by rfl)
    rw [show (normalize_raw_provider_declaration safeMarkerDups).2 = true from rfl] at h
    simpa using h
  · exact c9_dedup_amended.2.2 dupsNoMarker cfgEmpty true (by rfl) (by rfl)

/-! ### Claim C3 -/

/-- C3: in write mode, when the patched in-memory text `js4` differs from the
original file content `js` and the syntax validator reports failure on the
written content, the engine restores the original content (the file's final
content equals its pre-patch content) and the run summary records the failure
in its own `syntax_fail` counter, on top of — and distinct from — the three
per-patch status tallies. -/
theorem c3_rollback (cfg : AliasConfig) (force : Bool) (validator : Text → Bool)
    (js t2 t3 js4 : Text) (st1 st2 st3 : String) (summary : Summary)
    (h1 : patch_postfix_support js = (t2, st1))
    (h2 : patch_identity_short t2 = (t3, st2))
    (h3 : patch_modelstamp_v3 t3 cfg force = (js4, st3))
    (hdiff : js4 ≠ js)
    (hfail : validator js4 = false) :
    process_file cfg force false validator js summary =
      (js,
       { bump (bump (bump summary PatchKind.pf st1) PatchKind.ids st2) PatchKind.ms st3
         with
         syntax_fail :=
           (bump (bump (bump summary PatchKind.pf st1) PatchKind.ids st2)
             PatchKind.ms st3).syntax_fail + 1 }) := by
  have hbeq : (js4 == js) = false := by
    exact beq_eq_false_iff_ne.mpr hdiff
  simp only [process_file, h1, h2, h3, hbeq, hfail]
  simp

/-- The all-zero summary of patch.py lines 998-1009. -/
def zeroSummary : Summary :=
  { postfix_patched := 0, postfix_already := 0, postfix_no_match := 0
    idshort_patched := 0, idshort_already := 0, idshort_no_match := 0
    modelstamp_patched := 0, modelstamp_already := 0, modelstamp_no_match := 0
    syntax_fail := 0 }

/-- C3 witness: a concrete patched file with an always-failing validator is
restored and the failure counted. -/
theorem c3_witness :
    process_file cfgEmpty false false (fun _ => false) literal_line zeroSummary =
      (literal_line,
       { bump (bump (bump zeroSummary PatchKind.pf
             (patch_postfix_support literal_line).2)
           PatchKind.ids
           (patch_identity_short (patch_postfix_support literal_line).1).2)
           PatchKind.ms
           (patch_modelstamp_v3
             (patch_identity_short (patch_postfix_support literal_line).1).1
             cfgEmpty false).2
         with
         syntax_fail :=
           (bump (bump (bump zeroSummary PatchKind.pf
               (patch_postfix_support literal_line).2)
             PatchKind.ids
             (patch_identity_short (patch_postfix_support literal_line).1).2)
             PatchKind.ms
             (patch_modelstamp_v3
               (patch_identity_short (patch_postfix_support literal_line).1).1
               cfgEmpty false).2).syntax_fail + 1 }) :=
  c3_rollback cfgEmpty false (fun _ => false) literal_line
    (patch_postfix_support literal_line).1
    (patch_identity_short (patch_postfix_support literal_line).1).1
    (patch_modelstamp_v3
      (patch_identity_short (patch_postfix_support literal_line).1).1
      cfgEmpty false).1
    (patch_postfix_support literal_line).2
    (patch_identity_short (patch_postfix_support literal_line).1).2
    (patch_modelstamp_v3
      (patch_identity_short (patch_postfix_support literal_line).1).1
      cfgEmpty false).2
    zeroSummary rfl rfl rfl (by decide) rfl

/-! ### Claim C4 -/

/-- The capitalized model name of the normalization claim. -/
def c4input_S : String := "Claude-Sonnet-4.6-20250101"

/-- Character-list form of `c4input_S`. -/
def c4input : Text := c4input_S.toList

/-- The lowercase variant of the same model name. -/
def c4lower_S : String := "claude-sonnet-4.6-20250101"

/-- Character-list form of `c4lower_S`. -/
def c4lower : Text := c4lower_S.toList

/-- The dot-version normalisation result. -/
def c4dot_S : String := "claude-sonnet-4.6"

/-- Character-list form of `c4dot_S`. -/
def c4dot : Text := c4dot_S.toList

/-- The dashed normalisation result the claim expects. -/
def c4dash_S : String := "claude-sonnet-4-6"

/-- Character-list form of `c4dash_S`. -/
def c4dash : Text := c4dash_S.toList

/-- C4 counterexample: normalising `Claude-Sonnet-4.6-20250101` (suffix
stripping by `_strip_model_suffixes`, then the resolver's lowercasing) yields
`claude-sonnet-4.6`, not the claimed `claude-sonnet-4-6`: the
`startswith("claude-")` vendor check runs before any lowercasing and is
case-sensitive, so the dot-version rewrite is skipped for the capitalized
name. -/
theorem c4_counterexample :
    pyLower (pyStrip (_strip_model_suffixes c4input)) = c4dot ∧ c4dot ≠ c4dash :=
  ⟨by rfl, by decide⟩

/-- C4 amended: for the lowercase spelling `claude-sonnet-4.6-20250101` the
normalisation yields exactly `claude-sonnet-4-6` (date suffix stripped and
dot-version rewritten); for the capitalized spelling the result keeps the dot
(`claude-sonnet-4.6`) because the `claude-` prefix check precedes lowercasing,
and the dashed form is still reached through the resolver's dots-to-dashes
candidate fallback. -/
theorem c4_normalization_amended :
    pyLower (pyStrip (_strip_model_suffixes c4lower)) = c4dash ∧
    pyLower (pyStrip (_strip_model_suffixes c4input)) = c4dot ∧
    _model_alias_candidates c4input = [c4dot, c4dash, dashesToDots c4dot] :=
  ⟨by rfl, by rfl, by rfl⟩

/-! ### Claim C5 -/

/-- `pyOrMd` never returns the empty text. -/
theorem pyOrMd_ne_nil (al : Text) : pyOrMd al ≠ [] := by
  unfold pyOrMd
  split
  · decide
  · next h =>
    intro hnil
    rw [hnil] at h
    exact h rfl

/-- `derive_alias_from_segs` always returns a non-empty alias. -/
theorem derive_alias_from_segs_ne_nil (name : Text) (segs : List Text) :
    derive_alias_from_segs name segs ≠ [] := by
  cases segs with
  | nil =>
    show wMd ≠ []
    decide
  | cons first segTail => exact pyOrMd_ne_nil _

/-- `derive_alias` always returns a non-empty alias. -/
theorem derive_alias_ne_nil (s : Text) : derive_alias s ≠ [] := by
  show (if (pyLower (pyStrip (_strip_model_suffixes s))).isEmpty = true then wMd
    else
      derive_alias_from_segs
        (stripDLPLoop (takeUntilColon (pyLower (pyStrip (_strip_model_suffixes s)))).length
          (takeUntilColon (pyLower (pyStrip (_strip_model_suffixes s)))))
        (segsOf
          (stripDLPLoop (takeUntilColon (pyLower (pyStrip (_strip_model_suffixes s)))).length
            (takeUntilColon (pyLower (pyStrip (_strip_model_suffixes s))))))) ≠ []
  split
  · decide
  · exact derive_alias_from_segs_ne_nil _ _

/-- The sample model name of the derivation claim. -/
def c5input_S : String := "claude-sonnet-4-6"

/-- Character-list form of `c5input_S`. -/
def c5input : Text := c5input_S.toList

/-- C5: `derive_alias` is deterministic (a pure function of its input) and
never returns an empty alias; on `claude-sonnet-4-6` it returns a string of
length between 2 and 5 (namely `s46`); on the empty string it returns the
fixed two-character sentinel `md`. -/
theorem c5_derive_alias_props :
    (∀ s : Text, derive_alias s = derive_alias s) ∧
    (∀ s : Text, derive_alias s ≠ []) ∧
    2 ≤ (derive_alias c5input).length ∧ (derive_alias c5input).length ≤ 5 ∧
    derive_alias [] = wMd ∧ wMd.length = 2 :=
  ⟨fun _ => rfl, derive_alias_ne_nil, by decide, by decide, by rfl, by rfl⟩

/-! ### Claim C6 -/

/-- The lookup key `foo-bar`. -/
def fooBar_S : String := "foo-bar"

/-- Character-list form of `fooBar_S`. -/
def fooBar : Text := fooBar_S.toList

/-- The transposed key `foo.bar`. -/
def fooDotBar_S : String := "foo.bar"

/-- Character-list form of `fooDotBar_S`. -/
def fooDotBar : Text := fooDotBar_S.toList

/-- A non-empty but blank alias value. -/
def blankVal_S : String := " "

/-- Character-list form of `blankVal_S`. -/
def blankVal : Text := blankVal_S.toList

/-- A distinct non-blank alias value. -/
def xVal_S : String := "x"

/-- Character-list form of `xVal_S`. -/
def xVal : Text := xVal_S.toList

/-- C6 counterexample: with `foo-bar` mapped to the non-empty value `" "` and
`foo.bar` mapped to the different non-empty value `"x"`, `_lookup_alias` on
`foo-bar` skips the blank-after-trimming exact match and returns the `foo.bar`
value instead of the value mapped to `foo-bar` — so the claim fails as stated
for values that are non-empty but blank. -/
theorem c6_counterexample :
    _lookup_alias fooBar [(fooBar, blankVal), (fooDotBar, xVal)] = some xVal ∧
    blankVal ≠ [] ∧ xVal ≠ [] ∧ blankVal ≠ xVal ∧
    some xVal ≠ some blankVal ∧ some xVal ≠ some (pyStrip blankVal) :=
  ⟨by rfl, by decide, by decide, by decide, by decide, by decide⟩

/-- C6 amended: for every alias table containing `foo-bar` mapped to a value
that is non-blank after trimming (and `foo.bar` mapped to any different
non-empty value), `_lookup_alias` on raw input `foo-bar` returns the `foo-bar`
value trimmed of surrounding whitespace — the exact normalized match is tried
before the dots-as-dashes and dashes-as-dots transpositions.  (The Python
lookup only ever calls `dict.get` on the table, so it cannot mutate it; the
embedding is accordingly a pure function of the table.) -/
theorem c6_lookup_amended (table : List (Text × Text)) (v1 v2 : Text)
    (hget1 : dictGet table fooBar = some v1)
    (hget2 : dictGet table fooDotBar = some v2)
    (hv1 : pyStrip v1 ≠ [])
    (hv2 : v2 ≠ [])
    (hne : v1 ≠ v2) :
    _lookup_alias fooBar table = some (pyStrip v1) := by
  have hc : _model_alias_candidates fooBar = [fooBar, fooDotBar] := by rfl
  show lookupCands (_model_alias_candidates fooBar) table = some (pyStrip v1)
  rw [hc]
  have hemp : (pyStrip v1).isEmpty = false := by
    cases h : pyStrip v1 with
    | nil => exact absurd h hv1
    | cons a b => rfl
  simp only [lookupCands, hget1]
  simp [hemp]

/-- C6 witness: the amended lookup at a concrete two-entry table. -/
theorem c6_witness :
    _lookup_alias fooBar [(fooBar, blankVal ++ xVal), (fooDotBar, xVal)] =
      some (pyStrip (blankVal ++ xVal)) :=
  c6_lookup_amended [(fooBar, blankVal ++ xVal), (fooDotBar, xVal)]
    (blankVal ++ xVal) xVal (by rfl) (by rfl) (by decide) (by decide) (by decide)

/-! ### Claim C7 -/

theorem digitChar_inj (a b : Nat) (ha : a < 10) (hb : b < 10)
    (h : digitChar a = digitChar b) : a = b := by
  interval_cases a <;> interval_cases b <;> simp_all [digitChar]

theorem natDecAux_ne_nil (fuel n : Nat) (h : 0 < fuel) : natDecAux fuel n ≠ [] := by
  cases fuel with
  | zero => omega
  | succ f =>
    simp only [natDecAux]
    split
    · simp
    · simp

theorem natDecAux_fuel : ∀ (n f1 f2 : Nat), n < f1 → n < f2 →
    natDecAux f1 n = natDecAux f2 n := by
  intro n
  induction n using Nat.strong_induction_on with
  | _ n ih =>
    intro f1 f2 h1 h2
    cases f1 with
    | zero => omega
    | succ g1 =>
      cases f2 with
      | zero => omega
      | succ g2 =>
        simp only [natDecAux]
        split
        · rfl
        · next hge =>
          have hlt : n / 10 < n := Nat.div_lt_self (by omega) (by omega)
          rw [ih (n / 10) hlt g1 g2 (by omega) (by omega)]

theorem natDec_inj : ∀ (a b : Nat), natDec a = natDec b → a = b := by
  intro a
  induction a using Nat.strong_induction_on with
  | _ a ih =>
    intro b h
    by_cases ha : a < 10
    · by_cases hb : b < 10
      · have h1 : natDec a = [digitChar a] := by simp [natDec, natDecAux, ha]
        have h2 : natDec b = [digitChar b] := by simp [natDec, natDecAux, hb]
        rw [h1, h2] at h
        exact digitChar_inj a b ha hb (List.singleton_injective h)
      · exfalso
        have h1 : natDec a = [digitChar a] := by simp [natDec, natDecAux, ha]
        have h2 : natDec b = natDecAux b (b / 10) ++ [digitChar (b % 10)] := by
          simp [natDec, natDecAux, hb]
        have hne := natDecAux_ne_nil b (b / 10) (by omega)
        rw [h1, h2] at h
        have := congrArg List.length h
        simp at this
        cases hx : natDecAux b (b / 10) with
        | nil => exact hne hx
        | cons c cs => rw [hx] at this; simp at this
    · by_cases hb : b < 10
      · exfalso
        have h1 : natDec b = [digitChar b] := by simp [natDec, natDecAux, hb]
        have h2 : natDec a = natDecAux a (a / 10) ++ [digitChar (a % 10)] := by
          simp [natDec, natDecAux, ha]
        have hne := natDecAux_ne_nil a (a / 10) (by omega)
        rw [h1, h2] at h
        have := congrArg List.length h
        simp at this
        cases hx : natDecAux a (a / 10) with
        | nil => exact hne hx
        | cons c cs => rw [hx] at this; simp at this
      · have h2a : natDec a = natDecAux a (a / 10) ++ [digitChar (a % 10)] := by
          simp [natDec, natDecAux, ha]
        have h2b : natDec b = natDecAux b (b / 10) ++ [digitChar (b % 10)] := by
          simp [natDec, natDecAux, hb]
        rw [h2a, h2b] at h
        have hpair := List.append_inj' h (by simp)
        have hdiv : a / 10 < a := Nat.div_lt_self (by omega) (by omega)
        have hfa : natDecAux a (a / 10) = natDec (a / 10) :=
          natDecAux_fuel (a / 10) a (a / 10 + 1) (by omega) (by omega)
        have hfb : natDecAux b (b / 10) = natDec (b / 10) :=
          natDecAux_fuel (b / 10) b (b / 10 + 1) (by omega) (by omega)
        have hq : a / 10 = b / 10 := by
          apply ih (a / 10) hdiv
          rw [← hfa, ← hfb, hpair.1]
        have hr : a % 10 = b % 10 := by
          have := hpair.2
          simp only [List.cons.injEq] at this
          exact digitChar_inj _ _ (Nat.mod_lt _ (by omega)) (Nat.mod_lt _ (by omega)) this.1
        omega

/-- Among the `used.length + 1` candidates `base ++ natDec (2 + i)`,
`i ≤ used.length`, at least one is not in `used`. -/
theorem exists_free_suffix (base : Text) (used : List Text) :
    ∃ i, i ≤ used.length ∧ (base ++ natDec (2 + i)) ∉ used := by
  by_contra hcon
  push_neg at hcon
  have hinj : Function.Injective fun i : Nat => base ++ natDec (2 + i) := by
    intro i j hij
    have := natDec_inj _ _ (List.append_cancel_left hij)
    omega
  have hnodup : ((List.range (used.length + 1)).map
      fun i => base ++ natDec (2 + i)).Nodup :=
    (List.nodup_range _).map hinj
  have hsub : ((List.range (used.length + 1)).map
      fun i => base ++ natDec (2 + i)) ⊆ used := by
    intro x hx
    rcases List.mem_map.mp hx with ⟨i, hi, rfl⟩
    exact hcon i (by simpa using Nat.lt_succ_iff.mp (List.mem_range.mp hi))
  have := (hnodup.subperm hsub).length_le
  simp at this

/-- The collision `while` loop finds the least free suffix at or above its
starting point, given a free candidate within the fuel window. -/
theorem collideLoop_spec (base : Text) (used : List Text) :
    ∀ (fuel k : Nat),
    (∃ i, i < fuel ∧ (base ++ natDec (k + i)) ∉ used) →
    ∃ m, k ≤ m ∧ collideLoop base used fuel k = base ++ natDec m ∧
      (base ++ natDec m) ∉ used ∧
      ∀ j, k ≤ j → j < m → (base ++ natDec j) ∈ used := by
  intro fuel
  induction fuel with
  | zero =>
    intro k ⟨i, hif, _⟩
    omega
  | succ fuel ih =>
    intro k ⟨i, hif, hfree⟩
    by_cases hmem : (base ++ natDec k) ∈ used
    · have hi0 : i ≠ 0 := by
        intro h0
        rw [h0] at hfree
        simp at hfree
        exact hfree hmem
      have hstep : collideLoop base used (fuel + 1) k = collideLoop base used fuel (k + 1) := by
        simp only [collideLoop]
        rw [if_pos (List.elem_iff.mpr hmem)]
      rcases ih (k + 1) ⟨i - 1, by omega, by
        have : k + 1 + (i - 1) = k + i := by omega
        rw [this]
        exact hfree⟩ with ⟨m, hkm, heq, hfm, hmin⟩
      refine ⟨m, by omega, by rw [hstep]; exact heq, hfm, ?_⟩
      intro j hkj hjm
      by_cases hj : j = k
      · rw [hj]; exact hmem
      · exact hmin j (by omega) hjm
    · refine ⟨k, Nat.le_refl k, ?_, hmem, by omega⟩
      simp only [collideLoop]
      rw [if_neg]
      intro hc
      exact hmem (List.elem_iff.mp hc)

/-- When the derived alias collides, `resolveCollision` appends the least free
integer suffix starting at 2. -/
theorem resolveCollision_spec (base : Text) (used : List Text)
    (h : base ∈ used) :
    ∃ k, 2 ≤ k ∧ resolveCollision base used = base ++ natDec k ∧
      (base ++ natDec k) ∉ used ∧
      ∀ j, 2 ≤ j → j < k → (base ++ natDec j) ∈ used := by
  have hfree := exists_free_suffix base used
  rcases hfree with ⟨i, hi, hif⟩
  have hloop := collideLoop_spec base used (used.length + 1) 2
    ⟨i, by omega, by
      have : 2 + i = 2 + i := rfl
      exact hif⟩
  rcases hloop with ⟨m, h2m, heq, hfm, hmin⟩
  refine ⟨m, h2m, ?_, hfm, hmin⟩
  simp only [resolveCollision]
  rw [if_pos (List.elem_iff.mpr h)]
  exact heq

/-- `resolveCollision` never returns a value already in use. -/
theorem resolveCollision_not_mem (base : Text) (used : List Text) :
    resolveCollision base used ∉ used := by
  by_cases h : base ∈ used
  · rcases resolveCollision_spec base used h with ⟨k, _, heq, hfm, _⟩
    rw [heq]
    exact hfm
  · simp only [resolveCollision]
    rw [if_neg]
    · exact h
    · intro hc
      exact h (List.elem_iff.mp hc)

/-- Invariant of the `sync_models` loop: derived values are pairwise distinct
and all recorded in the used set. -/
theorem sync_fold_invariant (builtin : List (Text × Text)) :
    ∀ (models : List Text) (st : SyncState),
    (st.derived.map Prod.snd).Nodup →
    (∀ v, v ∈ st.derived.map Prod.snd → v ∈ st.used) →
    (((models.foldl (sync_step builtin) st).derived.map Prod.snd).Nodup ∧
      ∀ v, v ∈ (models.foldl (sync_step builtin) st).derived.map Prod.snd →
        v ∈ (models.foldl (sync_step builtin) st).used) := by
  intro models
  induction models with
  | nil => intro st h1 h2; exact ⟨h1, h2⟩
  | cons m rest ih =>
    intro st h1 h2
    simp only [List.foldl_cons]
    apply ih
    · by_cases hskip : ((_lookup_alias m builtin).isSome ||
          (_lookup_alias m st.custom).isSome) = true
      · simpa [sync_step, hskip] using h1
      · have hfresh := resolveCollision_not_mem (derive_alias m) st.used
        simp only [sync_step, hskip]
        simp only [Bool.false_eq_true, if_false, List.map_append, List.map_cons,
          List.map_nil]
        rw [List.nodup_append]
        refine ⟨h1, by simp, ?_⟩
        intro v hv
        simp only [List.mem_singleton]
        intro hveq
        rw [hveq] at hv
        exact hfresh (h2 _ hv)
    · by_cases hskip : ((_lookup_alias m builtin).isSome ||
          (_lookup_alias m st.custom).isSome) = true
      · intro v hv
        simp only [sync_step, hskip] at hv ⊢
        exact h2 v hv
      · intro v hv
        simp only [sync_step, hskip] at hv ⊢
        simp only [Bool.false_eq_true, if_false, List.map_append, List.map_cons,
          List.map_nil, List.mem_append, List.mem_singleton] at hv ⊢
        rcases hv with hv | hv
        · exact Or.inl (h2 v hv)
        · exact Or.inr (by simp [hv])

/-- C7: in one model-sync resolution batch, when `derive_alias` produces an
alias already among the used values, the assignment becomes that alias with
the next free incrementing integer suffix starting at 2, and no two distinct
models in the batch receive the same alias value. -/
theorem c7_collision_avoidance :
    (∀ (m : Text) (used : List Text), derive_alias m ∈ used →
      ∃ k, 2 ≤ k ∧
        resolveCollision (derive_alias m) used = derive_alias m ++ natDec k ∧
        (derive_alias m ++ natDec k) ∉ used ∧
        ∀ j, 2 ≤ j → j < k → (derive_alias m ++ natDec j) ∈ used) ∧
    (∀ (models : List Text) (builtin custom : List (Text × Text)),
      ((sync_models_derived models builtin custom).map Prod.snd).Nodup) := by
  constructor
  · intro m used h
    exact resolveCollision_spec (derive_alias m) used h
  · intro models builtin custom
    exact (sync_fold_invariant builtin models
      { custom := custom, used := usedInit builtin custom, derived := [] }
      (by simp) (by simp)).1

/-- The model name `glm-5` whose derived alias is the claim's example `g5`. -/
def glm5_S : String := "glm-5"

/-- Character-list form of `glm5_S`. -/
def glm5 : Text := glm5_S.toList

/-- C7 witness: with `g5` already used, `glm-5` is assigned the suffixed next
free alias. -/
theorem c7_witness :
    ∃ k, 2 ≤ k ∧
      resolveCollision (derive_alias glm5) [derive_alias glm5] =
        derive_alias glm5 ++ natDec k ∧
      (derive_alias glm5 ++ natDec k) ∉ [derive_alias glm5] ∧
      ∀ j, 2 ≤ j → j < k → (derive_alias glm5 ++ natDec j) ∈ [derive_alias glm5] :=
  c7_collision_avoidance.1 glm5 [derive_alias glm5] (by simp)

/-! ### Claim C8 -/

theorem objGet_objSet_self : ∀ (o : JObj) (k : Text) (v : JVal),
    objGet (objSet o k v) k = some v
  | JObj.onil, k, v => by simp [objSet, objGet]
  | JObj.ocons k0 v0 rest, k, v => by
    simp only [objSet]
    by_cases h : (k0 == k) = true
    · rw [if_pos h]
      simp [objGet, h]
    · rw [if_neg h]
      simp only [objGet]
      rw [if_neg h]
      exact objGet_objSet_self rest k v

theorem objGet_objSet_other : ∀ (o : JObj) (k k' : Text) (v : JVal), k' ≠ k →
    objGet (objSet o k v) k' = objGet o k'
  | JObj.onil, k, k', v, hne => by
    simp only [objSet, objGet]
    rw [if_neg (by simpa using fun h => hne (beq_iff_eq.mp h).symm)]
  | JObj.ocons k0 v0 rest, k, k', v, hne => by
    simp only [objSet]
    by_cases h : (k0 == k) = true
    · rw [if_pos h]
      have hk0 : k0 = k := beq_iff_eq.mp h
      simp only [objGet]
      have hne' : (k0 == k') ≠ true := by
        simpa using fun hx => hne ((beq_iff_eq.mp hx).symm.trans hk0)
      rw [if_neg hne', if_neg hne']
    · rw [if_neg h]
      simp only [objGet]
      by_cases h2 : (k0 == k') = true
      · rw [if_pos h2, if_pos h2]
      · rw [if_neg h2, if_neg h2]
        exact objGet_objSet_other rest k k' v hne

/-- `fixLen` at its own key when the key is present: a positive-int value is
kept and any other value is replaced by the default. -/
theorem objGet_fixLen_some (fs : JObj) (k : Text) (d : Int) (v : JVal)
    (hv : objGet fs k = some v) :
    objGet (fixLen fs k d) k = some (if isPyPosInt v then v else JVal.jint d) := by
  simp only [fixLen, hv, Option.getD_some]
  by_cases h : isPyPosInt v = true
  · rw [if_pos h, if_pos h]
    exact hv
  · rw [if_neg h, if_neg h]
    exact objGet_objSet_self fs k (JVal.jint d)

/-- `fixLen` at its own key when the key is missing: a missing key with a
positive default (all three defaults are positive) stays missing. -/
theorem objGet_fixLen_none (fs : JObj) (k : Text) (d : Int)
    (hv : objGet fs k = none) (hd : 0 < d) :
    objGet (fixLen fs k d) k = none := by
  simp only [fixLen, hv, Option.getD_none]
  rw [if_pos (by simp [isPyPosInt, hd])]
  exact hv

/-- `fixLen` leaves other keys untouched. -/
theorem objGet_fixLen_other (fs : JObj) (k k' : Text) (d : Int) (hne : k' ≠ k) :
    objGet (fixLen fs k d) k' = objGet fs k' := by
  simp only [fixLen]
  split
  · rfl
  · exact objGet_objSet_other fs k k' (JVal.jint d) hne

/-- `fixMap` at its own key when the value is an object: it is kept. -/
theorem objGet_fixMap_obj (cfg : JObj) (k : Text) (o : JObj)
    (h : objGet cfg k = some (JVal.jobj o)) :
    objGet (fixMap cfg k) k = some (JVal.jobj o) := by
  simp only [fixMap, h]

/-- `fixMap` at its own key when the value is not an object (or missing):
it is reset to the empty object. -/
theorem objGet_fixMap_nonobj (cfg : JObj) (k : Text)
    (h : ∀ o, objGet cfg k ≠ some (JVal.jobj o)) :
    objGet (fixMap cfg k) k = some (JVal.jobj JObj.onil) := by
  simp only [fixMap]
  cases hv : objGet cfg k with
  | some v =>
    cases v with
    | jobj o => exact absurd hv (h o)
    | jnull => simpa using objGet_objSet_self cfg k (JVal.jobj JObj.onil)
    | jbool b => simpa using objGet_objSet_self cfg k (JVal.jobj JObj.onil)
    | jint n => simpa using objGet_objSet_self cfg k (JVal.jobj JObj.onil)
    | jstr s => simpa using objGet_objSet_self cfg k (JVal.jobj JObj.onil)
    | jarr xs => simpa using objGet_objSet_self cfg k (JVal.jobj JObj.onil)
  | none => simpa using objGet_objSet_self cfg k (JVal.jobj JObj.onil)

/-- `fixMap` leaves other keys untouched. -/
theorem objGet_fixMap_other (cfg : JObj) (k k' : Text) (hne : k' ≠ k) :
    objGet (fixMap cfg k) k' = objGet cfg k' := by
  simp only [fixMap]
  split
  · rfl
  · exact objGet_objSet_other cfg k k' (JVal.jobj JObj.onil) hne

/-- The `fallback` object after the three length fixes in `load_config`
(patch.py lines 185-189). -/
def lcFallbackFixed (fs : JObj) : JObj :=
  fixLen (fixLen (fixLen fs dcs158 2) dcs159 2) dcs160 12

/-- The configuration object `load_config` returns when the merged
configuration's `fallback` value is the object `fs`
(patch.py lines 190-196). -/
def lcOut (ufs fs : JObj) : JObj :=
  fixMap (fixMap (fixMap (fixMap
    (objSet (deepMergeO DEFAULT_CONFIG_FIELDS ufs) kFallback
      (JVal.jobj (lcFallbackFixed fs))) dcs2) dcs114) dcs129) dcs161

/-- C8 counterexample: the claim quantifies over every configuration input,
but a configuration whose `fallback` value is a non-dict (here the integer 5,
which deep-merge keeps as-is over the default dict) makes `load_config` raise
an `AttributeError` at `fallback.get` (patch.py line 187) instead of
returning a configuration with the defaults restored. -/
theorem c8_counterexample :
    load_config (JVal.jobj (JObj.ocons kFallback (JVal.jint 5) JObj.onil)) =
      Except.error errFallbackGet_S := rfl

/-- C8 (amended): for every user configuration object whose merge over the
built-in defaults carries an object at key `fallback`, `load_config` succeeds,
and in the result: each of the three fallback length fields that is present
with a malformed (not positive-int) value is replaced by its default (2, 2,
12 respectively) while a well-formed value is kept (a missing key stays
missing), and each of the four map fields is an object — the merged value
when that was an object, the empty object otherwise.  (The original claim
fails for inputs whose merged `fallback` is not an object: `load_config`
raises instead of repairing, see the counterexample.) -/
theorem c8_load_config_amended (ufs fs : JObj)
    (hfb : objGet (deepMergeO DEFAULT_CONFIG_FIELDS ufs) kFallback =
      some (JVal.jobj fs)) :
    load_config (JVal.jobj ufs) = Except.ok (JVal.jobj (lcOut ufs fs)) ∧
    objGet (lcOut ufs fs) kFallback = some (JVal.jobj (lcFallbackFixed fs)) ∧
    ((∀ v, objGet fs dcs158 = some v →
        objGet (lcFallbackFixed fs) dcs158 =
          some (if isPyPosInt v then v else JVal.jint 2)) ∧
      (objGet fs dcs158 = none → objGet (lcFallbackFixed fs) dcs158 = none)) ∧
    ((∀ v, objGet fs dcs159 = some v →
        objGet (lcFallbackFixed fs) dcs159 =
          some (if isPyPosInt v then v else JVal.jint 2)) ∧
      (objGet fs dcs159 = none → objGet (lcFallbackFixed fs) dcs159 = none)) ∧
    ((∀ v, objGet fs dcs160 = some v →
        objGet (lcFallbackFixed fs) dcs160 =
          some (if isPyPosInt v then v else JVal.jint 12)) ∧
      (objGet fs dcs160 = none → objGet (lcFallbackFixed fs) dcs160 = none)) ∧
    (∀ mk : Text, mk ∈ [dcs2, dcs114, dcs129, dcs161] →
      (∀ o, objGet (deepMergeO DEFAULT_CONFIG_FIELDS ufs) mk =
          some (JVal.jobj o) → objGet (lcOut ufs fs) mk = some (JVal.jobj o)) ∧
      ((∀ o, objGet (deepMergeO DEFAULT_CONFIG_FIELDS ufs) mk ≠
          some (JVal.jobj o)) →
        objGet (lcOut ufs fs) mk = some (JVal.jobj JObj.onil))) := by
  refine ⟨?_, ?_, ?_, ?_, ?_, ?_⟩
  · simp only [load_config]
    rw [hfb]
    simp only [Option.getD_some]
    rfl
  · unfold lcOut
    rw [objGet_fixMap_other _ dcs161 kFallback (by decide),
        objGet_fixMap_other _ dcs129 kFallback (by decide),
        objGet_fixMap_other _ dcs114 kFallback (by decide),
        objGet_fixMap_other _ dcs2 kFallback (by decide)]
    exact objGet_objSet_self _ _ _
  · constructor
    · intro v hv
      unfold lcFallbackFixed
      rw [objGet_fixLen_other _ dcs160 dcs158 12 (by decide),
          objGet_fixLen_other _ dcs159 dcs158 2 (by decide)]
      exact objGet_fixLen_some fs dcs158 2 v hv
    · intro hv
      unfold lcFallbackFixed
      rw [objGet_fixLen_other _ dcs160 dcs158 12 (by decide),
          objGet_fixLen_other _ dcs159 dcs158 2 (by decide)]
      exact objGet_fixLen_none fs dcs158 2 hv (by decide)
  · have h1 : objGet (fixLen fs dcs158 2) dcs159 = objGet fs dcs159 :=
      objGet_fixLen_other fs dcs158 dcs159 2 (by decide)
    constructor
    · intro v hv
      unfold lcFallbackFixed
      rw [objGet_fixLen_other _ dcs160 dcs159 12 (by decide)]
      exact objGet_fixLen_some _ dcs159 2 v (h1.trans hv)
    · intro hv
      unfold lcFallbackFixed
      rw [objGet_fixLen_other _ dcs160 dcs159 12 (by decide)]
      exact objGet_fixLen_none _ dcs159 2 (h1.trans hv) (by decide)
  · have h1 : objGet (fixLen (fixLen fs dcs158 2) dcs159 2) dcs160 =
        objGet fs dcs160 :=
      (objGet_fixLen_other _ dcs159 dcs160 2 (by decide)).trans
        (objGet_fixLen_other fs dcs158 dcs160 2 (by decide))
    constructor
    · intro v hv
      unfold lcFallbackFixed
      exact objGet_fixLen_some _ dcs160 12 v (h1.trans hv)
    · intro hv
      unfold lcFallbackFixed
      exact objGet_fixLen_none _ dcs160 12 (h1.trans hv) (by decide)
  · intro mk hmk
    simp only [List.mem_cons, List.not_mem_nil, or_false] at hmk
    rcases hmk with h | h | h | h <;> subst h
    · constructor
      · intro o ho
        unfold lcOut
        rw [objGet_fixMap_other _ dcs161 dcs2 (by decide),
            objGet_fixMap_other _ dcs129 dcs2 (by decide),
            objGet_fixMap_other _ dcs114 dcs2 (by decide)]
        apply objGet_fixMap_obj
        rw [objGet_objSet_other _ kFallback dcs2 _ (by decide)]
        exact ho
      · intro hno
        unfold lcOut
        rw [objGet_fixMap_other _ dcs161 dcs2 (by decide),
            objGet_fixMap_other _ dcs129 dcs2 (by decide),
            objGet_fixMap_other _ dcs114 dcs2 (by decide)]
        apply objGet_fixMap_nonobj
        intro o
        rw [objGet_objSet_other _ kFallback dcs2 _ (by decide)]
        exact hno o
    · constructor
      · intro o ho
        unfold lcOut
        rw [objGet_fixMap_other _ dcs161 dcs114 (by decide),
            objGet_fixMap_other _ dcs129 dcs114 (by decide)]
        apply objGet_fixMap_obj
        rw [objGet_fixMap_other _ dcs2 dcs114 (by decide),
            objGet_objSet_other _ kFallback dcs114 _ (by decide)]
        exact ho
      · intro hno
        unfold lcOut
        rw [objGet_fixMap_other _ dcs161 dcs114 (by decide),
            objGet_fixMap_other _ dcs129 dcs114 (by decide)]
        apply objGet_fixMap_nonobj
        intro o
        rw [objGet_fixMap_other _ dcs2 dcs114 (by decide),
            objGet_objSet_other _ kFallback dcs114 _ (by decide)]
        exact hno o
    · constructor
      · intro o ho
        unfold lcOut
        rw [objGet_fixMap_other _ dcs161 dcs129 (by decide)]
        apply objGet_fixMap_obj
        rw [objGet_fixMap_other _ dcs114 dcs129 (by decide),
            objGet_fixMap_other _ dcs2 dcs129 (by decide),
            objGet_objSet_other _ kFallback dcs129 _ (by decide)]
        exact ho
      · intro hno
        unfold lcOut
        rw [objGet_fixMap_other _ dcs161 dcs129 (by decide)]
        apply objGet_fixMap_nonobj
        intro o
        rw [objGet_fixMap_other _ dcs114 dcs129 (by decide),
            objGet_fixMap_other _ dcs2 dcs129 (by decide),
            objGet_objSet_other _ kFallback dcs129 _ (by decide)]
        exact hno o
    · constructor
      · intro o ho
        unfold lcOut
        apply objGet_fixMap_obj
        rw [objGet_fixMap_other _ dcs129 dcs161 (by decide),
            objGet_fixMap_other _ dcs114 dcs161 (by decide),
            objGet_fixMap_other _ dcs2 dcs161 (by decide),
            objGet_objSet_other _ kFallback dcs161 _ (by decide)]
        exact ho
      · intro hno
        unfold lcOut
        apply objGet_fixMap_nonobj
        intro o
        rw [objGet_fixMap_other _ dcs129 dcs161 (by decide),
            objGet_fixMap_other _ dcs114 dcs161 (by decide),
            objGet_fixMap_other _ dcs2 dcs161 (by decide),
            objGet_objSet_other _ kFallback dcs161 _ (by decide)]
        exact hno o

/-- A concrete user configuration for the C8 witness: a `fallback` object
whose `provider_length` is the (malformed) string `O`. -/
def c8ufs : JObj :=
  JObj.ocons kFallback
    (JVal.jobj (JObj.ocons dcs158 (JVal.jstr dcs163) JObj.onil)) JObj.onil

/-- The merged `fallback` object for `c8ufs`: the user's malformed
`provider_length` over the default lengths. -/
def c8fs : JObj :=
  objOfList [(dcs158, JVal.jstr dcs163), (dcs159, JVal.jint 2),
    (dcs160, JVal.jint 12)]

/-- C8 witness: on `c8ufs` the merged `fallback` is an object, `load_config`
succeeds, and the malformed `provider_length` is replaced by its default 2. -/
theorem c8_witness :
    objGet (deepMergeO DEFAULT_CONFIG_FIELDS c8ufs) kFallback =
      some (JVal.jobj c8fs) ∧
    load_config (JVal.jobj c8ufs) = Except.ok (JVal.jobj (lcOut c8ufs c8fs)) ∧
    objGet (lcFallbackFixed c8fs) dcs158 = some (JVal.jint 2) :=
  ⟨rfl, (c8_load_config_amended c8ufs c8fs rfl).1,
    ((c8_load_config_amended c8ufs c8fs rfl).2.2.1).1 (JVal.jstr dcs163) rfl⟩
